import Mathlib

/-!
Verification development for the ForexBot repository.

Shallow embedding of the two strategy/risk engines:
  * `liquidity_sweep_strategy.py` — candles, liquidity levels, sweep and
    break-of-structure detection, SL/TP construction, `generate_signals`.
  * `forexbot_core.py` — position sizing and the `run_tick` orchestrator.
  * `chaosfx/risk.py`, `chaosfx/strategy.py`, `chaosfx/engine.py` — the
    ChaosEngine-FX risk functions, signal generator and `run_once` cycle.

Conventions of the embedding:
  * Python floats become `ℚ` (exact arithmetic); Python `int(x)` (truncation
    toward zero) becomes `truncInt`.
  * `datetime` timestamps become minutes-since-epoch naturals; a calendar
    date is the timestamp divided by 1440.
  * pandas/NaN-valued indicator cells become `Option ℚ` (`none` = NaN), and
    pandas comparisons against NaN (which are `False`) become `optLt`.
  * external collaborators (broker client, clock) become explicit
    environment records passed to the orchestrators.
  * Python's `open` attribute is spelled `opn` (`open` is a Lean keyword).
-/

-- Batteries marks the `Rat` field operations `@[irreducible]`, which blocks
-- `decide` on concrete rational computations.  Reducibility attributes are
-- invisible to the kernel, so restoring the default (file-locally) does not
-- change what is provable; it only lets concrete witnesses evaluate.
set_option allowUnsafeReducibility true
attribute [local semireducible] Rat.mul Rat.inv Rat.add Rat.sub

namespace ForexBot

/-- Python `int(q)`: truncation toward zero. -/
def truncInt (q : ℚ) : ℤ := if q < 0 then ⌈q⌉ else ⌊q⌋

/-- Python `s.count(t) > 0` / `t in s` membership used via `splitOn`. -/
def containsSub (s t : String) : Bool := (s.splitOn t).length ≥ 2

/-! ## liquidity_sweep_strategy.py : data model -/

/-- `Candle` dataclass (timestamp, open, high, low, close).  Timestamps are
minutes since epoch. -/
structure Candle where
  timestamp : ℕ
  opn : ℚ
  high : ℚ
  low : ℚ
  close : ℚ
deriving DecidableEq, Inhabited

/-- `Side = Literal["long", "short"]`. -/
inductive TradeSide where
  | long
  | short
deriving DecidableEq

/-- `Signal` dataclass of the liquidity strategy. -/
structure LiqSignal where
  symbol : String
  side : TradeSide
  entry : ℚ
  stop_loss : ℚ
  take_profit : ℚ
  rr : ℚ
  timeframe_entry : String
  comment : String
deriving DecidableEq

/-- `LiquiditySweepConfig` (the `asian_session` field is never read by the
source and is omitted). -/
structure LiquiditySweepConfig where
  max_spread : ℚ
  min_wick_ratio : ℚ
  rr_default : ℚ
  rr_premium : ℚ
deriving DecidableEq

/-- `PIP_FACTOR` dict; `generate_signals` reads it with default `0.0001`. -/
def PIP_FACTOR (symbol : String) : ℚ :=
  if symbol = "EURGBP" then 1/10000
  else if symbol = "XAUUSD" then 1/100
  else if symbol = "GBPCAD" then 1/10000
  else 1/10000

/-- `PAIR_CONFIG` dict (the source only ever indexes it with the three
symbols of the trading universe). -/
def PAIR_CONFIG (symbol : String) : LiquiditySweepConfig :=
  if symbol = "EURGBP" then ⟨5/2, 35/100, 2, 5/2⟩
  else if symbol = "XAUUSD" then ⟨35, 30/100, 5/2, 3⟩
  else ⟨4, 35/100, 2, 5/2⟩

/-! ## liquidity_sweep_strategy.py : swings and bias -/

/-- `_is_up_trend`: last three swing lows strictly increasing. -/
def is_up_trend (swings : List Candle) : Bool :=
  if swings.length < 3 then false
  else
    let lows := (swings.drop (swings.length - 3)).map (·.low)
    decide (lows.getD 0 0 < lows.getD 1 0 ∧ lows.getD 1 0 < lows.getD 2 0)

/-- `_is_down_trend`: last three swing highs strictly decreasing. -/
def is_down_trend (swings : List Candle) : Bool :=
  if swings.length < 3 then false
  else
    let highs := (swings.drop (swings.length - 3)).map (·.high)
    decide (highs.getD 2 0 < highs.getD 1 0 ∧ highs.getD 1 0 < highs.getD 0 0)

/-- `_find_swings`: fractal swing highs and lows with symmetric lookback. -/
def find_swings (candles : List Candle) (lookback : ℕ) :
    List Candle × List Candle :=
  let n := candles.length
  let idxs := (List.range n).filter fun i =>
    decide (lookback ≤ i ∧ i + 1 + lookback ≤ n)
  let highs := idxs.filterMap fun i =>
    let c := candles.getD i default
    let left := (candles.take i).drop (i - lookback)
    let right := (candles.drop (i + 1)).take lookback
    if (left ++ right).all (fun x => decide (x.high < c.high)) then some c
    else none
  let lows := idxs.filterMap fun i =>
    let c := candles.getD i default
    let left := (candles.take i).drop (i - lookback)
    let right := (candles.drop (i + 1)).take lookback
    if (left ++ right).all (fun x => decide (c.low < x.low)) then some c
    else none
  (highs, lows)

/-- `_compute_bias_4h` (identical body to `_compute_bias_1h`). -/
def compute_bias (candles : List Candle) : String :=
  if candles.length < 20 then "range"
  else
    let swings := find_swings candles 2
    let bullish := is_up_trend swings.2
    let bearish := is_down_trend swings.1
    if bullish ∧ ¬bearish then "bullish"
    else if bearish ∧ ¬bullish then "bearish"
    else "range"

/-! ## liquidity_sweep_strategy.py : liquidity levels -/

/-- `LiquidityLevel.kind` literal values. -/
inductive LevelKind where
  | PDH
  | PDL
  | EQH
  | EQL
deriving DecidableEq

/-- `LiquidityLevel` dataclass. -/
structure LiquidityLevel where
  price : ℚ
  kind : LevelKind
deriving DecidableEq

/-- Calendar date of a timestamp (minutes since epoch). -/
def tsDay (t : ℕ) : ℕ := t / 1440

/-- `_previous_day_high_low`: high and low of the second-most-recent
calendar date present in the window. -/
def previous_day_high_low (candles_5m : List Candle) : Option (ℚ × ℚ) :=
  if candles_5m.isEmpty then none
  else
    let days := (candles_5m.map fun c => tsDay c.timestamp).dedup
    if days.length < 2 then none
    else
      let sorted := days.mergeSort (· ≤ ·)
      let prev_date := sorted.getD (sorted.length - 2) 0
      match candles_5m.filter (fun c => decide (tsDay c.timestamp = prev_date)) with
      | [] => none
      | x :: xs =>
        some (xs.foldl (fun m c => max m c.high) x.high,
              xs.foldl (fun m c => min m c.low) x.low)

/-- `_equal_levels`: adjacent-pair equal-high / equal-low clustering. -/
def equal_levels (candles_5m : List Candle) (threshold_ratio : ℚ) :
    List LiquidityLevel :=
  if candles_5m.length < 10 then []
  else
    let highs := candles_5m.map (·.high)
    let lows := candles_5m.map (·.low)
    let avg_range :=
      ((highs.zip lows).map (fun p => p.1 - p.2)).sum / (highs.length : ℚ)
    if avg_range ≤ 0 then []
    else
      let tol := avg_range * threshold_ratio
      let eqh := ((highs.zip (highs.drop 1)).filterMap fun p =>
        if |p.2 - p.1| ≤ tol then
          some (LiquidityLevel.mk ((p.2 + p.1) / 2) .EQH)
        else none)
      let eql := ((lows.zip (lows.drop 1)).filterMap fun p =>
        if |p.2 - p.1| ≤ tol then
          some (LiquidityLevel.mk ((p.2 + p.1) / 2) .EQL)
        else none)
      eqh ++ eql

/-- `_build_liquidity_levels`. -/
def build_liquidity_levels (candles_5m : List Candle) : List LiquidityLevel :=
  (match previous_day_high_low candles_5m with
   | some (pdh, pdl) => [LiquidityLevel.mk pdh .PDH, LiquidityLevel.mk pdl .PDL]
   | none => []) ++ equal_levels candles_5m (20/100)

/-! ## liquidity_sweep_strategy.py : sweep and BOS -/

/-- `SweepResult` dataclass. -/
structure SweepResult where
  candle : Candle
  level : LiquidityLevel
  side : TradeSide
deriving DecidableEq

/-- `_detect_sweep`: examines only the most recent bar; the first matching
level in list order wins. -/
def detect_sweep (candles_5m : List Candle) (levels : List LiquidityLevel)
    (bias : String) (cfg : LiquiditySweepConfig) : Option SweepResult :=
  match candles_5m.getLast? with
  | none => none
  | some last =>
    if levels.isEmpty then none
    else
      let rng := last.high - last.low
      if rng ≤ 0 then none
      else
        let upper_wick := last.high - max last.opn last.close
        let lower_wick := min last.opn last.close - last.low
        let upper_ratio := upper_wick / rng
        let lower_ratio := lower_wick / rng
        -- the source returns out of the bullish loop and otherwise falls
        -- through to the bearish branch: `Option.or` of the two pure branches
        (if bias = "bullish" ∧ cfg.min_wick_ratio ≤ lower_ratio then
          (levels.find? fun l =>
            decide (last.low < l.price ∧ l.price ≤ last.close)).map
            fun l => SweepResult.mk last l .long
         else none).or
        (if bias = "bearish" ∧ cfg.min_wick_ratio ≤ upper_ratio then
          (levels.find? fun l =>
            decide (last.close ≤ l.price ∧ l.price < last.high)).map
            fun l => SweepResult.mk last l .short
         else none)

/-- `_confirm_bos`: wick-based break of the 3-bar pre-sweep extreme by any
bar strictly after the sweep bar; requires at least 10 bars. -/
def confirm_bos (candles_5m : List Candle) (sweep : SweepResult) : Bool :=
  if candles_5m.length < 10 then false
  else
    match candles_5m.findIdx? (fun c => c.timestamp == sweep.candle.timestamp) with
    | none => false
    | some idx =>
      let lookback := (candles_5m.take idx).drop (idx - 3)
      match sweep.side with
      | .long =>
        match lookback with
        | [] => false
        | x :: xs =>
          let minor_high := xs.foldl (fun m c => max m c.high) x.high
          (candles_5m.drop (idx + 1)).any fun c => decide (minor_high < c.high)
      | .short =>
        match lookback with
        | [] => false
        | x :: xs =>
          let minor_low := xs.foldl (fun m c => min m c.low) x.low
          (candles_5m.drop (idx + 1)).any fun c => decide (c.low < minor_low)

/-! ## liquidity_sweep_strategy.py : RR selection and SL/TP -/

/-- `_choose_rr`: premium RR for previous-day levels, default otherwise. -/
def choose_rr (symbol : String) (sweep : SweepResult) : ℚ :=
  let cfg := PAIR_CONFIG symbol
  if sweep.level.kind = .PDH ∨ sweep.level.kind = .PDL then cfg.rr_premium
  else cfg.rr_default

/-- `_calc_sl_tp`: SL beyond the sweep wick (± buffer), TP from RR. -/
def calc_sl_tp (entry : ℚ) (side : TradeSide) (sweep : SweepResult) (rr : ℚ)
    (buffer_points : ℚ) : ℚ × ℚ :=
  match side with
  | .long =>
    let sl := sweep.candle.low - buffer_points
    let risk := entry - sl
    (sl, entry + risk * rr)
  | .short =>
    let sl := sweep.candle.high + buffer_points
    let risk := sl - entry
    (sl, entry - risk * rr)

/-! ## liquidity_sweep_strategy.py : generate_signals -/

/-- The `MarketDataInterface` collaborator: candle and spread queries. -/
structure MarketData where
  spread : String → ℚ
  candles : String → String → ℕ → List Candle

/-- Render a `LevelKind` the way the Python f-string comment does. -/
def levelKindStr : LevelKind → String
  | .PDH => "PDH"
  | .PDL => "PDL"
  | .EQH => "EQH"
  | .EQL => "EQL"

/-- One iteration of the `generate_signals` loop: the per-symbol signal
decision with every skip condition a `none`. -/
def signal_for (market : MarketData) (symbol : String) : Option LiqSignal :=
  let cfg := PAIR_CONFIG symbol
  let raw_spread := market.spread symbol
  let pip_f := PIP_FACTOR symbol
  if ¬(0 < pip_f) then none
  else
    let spread_in_pips := raw_spread / pip_f
    if cfg.max_spread < spread_in_pips then none
    else
      let candles_4h := market.candles symbol "4H" 150
      let candles_1h := market.candles symbol "1H" 150
      let candles_5m := market.candles symbol "5M" 200
      if candles_4h.length < 30 ∨ candles_1h.length < 30 ∨ candles_5m.length < 50
      then none
      else
        let bias_4h := compute_bias candles_4h
        let bias_1h := compute_bias candles_1h
        if bias_4h = "range" then none
        else
          if (symbol = "EURGBP" ∨ symbol = "GBPCAD") ∧ bias_1h ≠ bias_4h then none
          else
            let bias := bias_4h
            let levels := build_liquidity_levels candles_5m
            match detect_sweep candles_5m levels bias cfg with
            | none => none
            | some sweep =>
              if ¬confirm_bos candles_5m sweep then none
              else
                match candles_5m.getLast? with
                | none => none
                | some last =>
                  let entry := last.close
                  let rr := choose_rr symbol sweep
                  let buffer := 3 * pip_f
                  let sltp := calc_sl_tp entry sweep.side sweep rr buffer
                  some (LiqSignal.mk symbol sweep.side entry sltp.1 sltp.2 rr "5m"
                    ("HTF " ++ bias.toUpper ++ " + 5M liquidity sweep ("
                      ++ levelKindStr sweep.level.kind ++ ") + BOS"))

/-- `generate_signals`: at most one signal per symbol, in universe order
(the `now_utc` argument is unused by the source body). -/
def generate_signals (market : MarketData) (_now_utc : ℕ) : List LiqSignal :=
  (["EURGBP", "XAUUSD", "GBPCAD"]).filterMap (signal_for market)

/-! ## forexbot_core.py : market-hours guard and position sizing -/

/-- `_is_forex_market_open` (same body in `forexbot_core.py` and
`chaosfx/engine.py`): closed Fri 22:00 UTC through Sun 22:00 UTC.
`weekday`: Mon = 0 … Sun = 6. -/
def is_forex_market_open (weekday hour : ℕ) : Bool :=
  if weekday = 5 then false
  else if weekday = 6 ∧ hour < 22 then false
  else if weekday = 4 ∧ 22 ≤ hour then false
  else true

/-- `_calc_position_size`: risk amount over stop distance, clamped at zero;
`risk_pct` is in percent.  The `pip_value` parameter is unused by the source
formula and is omitted here. -/
def calc_position_size (balance risk_pct entry stop_loss : ℚ) : ℚ :=
  let risk_amount := balance * (risk_pct / 100)
  let stop_distance := |entry - stop_loss|
  if stop_distance ≤ 0 then 0
  else max (risk_amount / stop_distance) 0

/-! ## forexbot_core.py : run_tick -/

/-- `SYMBOL_COOLDOWN_SECONDS`. -/
def SYMBOL_COOLDOWN_SECONDS : ℚ := 300

/-- The per-symbol cooldown map `_last_order_time`; `lookup` with default
`0.0` mirrors `dict.get(symbol, 0.0)`. -/
def CooldownMap : Type := String → ℚ

/-- `_last_order_time[symbol] = now`. -/
def cdSet (cd : CooldownMap) (symbol : String) (t : ℚ) : CooldownMap :=
  fun s => if s = symbol then t else cd s

/-- The dict appended to `signals_out` for every generated signal. -/
structure TickSigEntry where
  symbol : String
  side : TradeSide
  entry : ℚ
  stop_loss : ℚ
  take_profit : ℚ
  rr : ℚ
  comment : String
deriving DecidableEq

/-- `plan_payload`: the dict appended to `planned_orders`. -/
structure TickPlanEntry where
  symbol : String
  side : TradeSide
  units : ℤ
  entry : ℚ
  stop_loss : ℚ
  take_profit : ℚ
  rr : ℚ
  comment : String
deriving DecidableEq

/-- A broker response as stored by `run_tick`: the raw acknowledgment on
success, or the `{"status": "error", "detail": ...}` marker built in the
`except` branch. -/
inductive BrokerResp where
  | ok (resp : String)
  | err (detail : String)
deriving DecidableEq

/-- An entry of `orders` (executed orders): `plan_payload` plus response. -/
structure TickOrderEntry where
  plan : TickPlanEntry
  response : BrokerResp
deriving DecidableEq

/-- `signals_out` dict for one signal. -/
def toSigEntry (sig : LiqSignal) : TickSigEntry :=
  ⟨sig.symbol, sig.side, sig.entry, sig.stop_loss, sig.take_profit, sig.rr,
    sig.comment⟩

/-- Pip factor and unit cap chosen per symbol inside the `run_tick` loop. -/
def tickPip (symbol : String) : ℚ :=
  if symbol = "XAUUSD" then 1/100 else 1/10000

/-- The unit cap for a symbol inside the `run_tick` loop. -/
def tickMaxUnits (symbol : String) (max_units_fx max_units_xau : ℤ) : ℤ :=
  if symbol = "XAUUSD" then max_units_xau else max_units_fx

/-- The (unsigned, capped) unit count `run_tick` computes for a signal. -/
def tickUnits (balance risk_pct : ℚ) (sig : LiqSignal)
    (max_units_fx max_units_xau : ℤ) : ℤ :=
  let size := calc_position_size balance risk_pct sig.entry sig.stop_loss
  let units := truncInt size
  let maxU := tickMaxUnits sig.symbol max_units_fx max_units_xau
  if maxU < units then maxU else units

/-- Sign convention inside the loop: positive = buy, negative = sell. -/
def tickSignedUnits (side : TradeSide) (units : ℤ) : ℤ :=
  if side = .short then -|units| else |units|

/-- `plan_payload` for one signal. -/
def tickPlan (sig : LiqSignal) (signed_units : ℤ) : TickPlanEntry :=
  ⟨sig.symbol, sig.side, signed_units, sig.entry, sig.stop_loss,
    sig.take_profit, sig.rr, sig.comment⟩

/-- The broker collaborator of `run_tick`: `place_order` either returns an
acknowledgment or raises (the `Except.error` case). -/
def PlaceOrder : Type :=
  String → TradeSide → ℤ → ℚ → ℚ → ℚ → Except String String

/-- Loop accumulator of `run_tick`: the three output lists and the cooldown
map. -/
structure TickAcc where
  sigs : List TickSigEntry
  planned : List TickPlanEntry
  orders : List TickOrderEntry
  cd : CooldownMap

/-- One iteration of the `run_tick` per-signal loop.  `t` is the monotonic
clock value of this cycle.  Every `continue` of the source is an early
return of the accumulator. -/
def tickStep (place : PlaceOrder) (t balance risk_pct : ℚ)
    (execute_trades : Bool) (max_units_fx max_units_xau : ℤ)
    (acc : TickAcc) (sig : LiqSignal) : TickAcc :=
  let acc := { acc with sigs := acc.sigs ++ [toSigEntry sig] }
  if truncInt (calc_position_size balance risk_pct sig.entry sig.stop_loss)
      ≤ 0 then acc
  else
    let units := tickUnits balance risk_pct sig max_units_fx max_units_xau
    let last_ts := acc.cd sig.symbol
    if t - last_ts < SYMBOL_COOLDOWN_SECONDS then acc
    else
      let signed_units := tickSignedUnits sig.side units
      let plan := tickPlan sig signed_units
      let acc := { acc with planned := acc.planned ++ [plan] }
      if execute_trades then
        match place sig.symbol sig.side signed_units sig.entry sig.stop_loss
          sig.take_profit with
        | .ok r =>
          { acc with
            cd := cdSet acc.cd sig.symbol t
            orders := acc.orders ++ [⟨plan, .ok r⟩] }
        | .error e =>
          { acc with
            cd := cdSet acc.cd sig.symbol t
            orders := acc.orders ++ [⟨plan, .err e⟩] }
      else acc

/-- The per-cycle result payload of `run_tick` (timestamp field omitted:
it is the wall-clock ISO string, not used by any claim). -/
structure TickResult where
  signals : List TickSigEntry
  planned_orders : List TickPlanEntry
  orders : List TickOrderEntry

/-- Environment of one `run_tick` cycle: the wall clock (weekday/hour, for
the market-hours guard), the signals `generate_signals` produces this cycle,
and the broker's `place_order`. -/
structure TickEnv where
  weekday : ℕ
  hour : ℕ
  signals : List LiqSignal
  place : PlaceOrder

/-- `run_tick`: market-hours guard, then the per-signal loop.  `t` is the
monotonic clock value of this cycle; `cd` the cooldown map carried across
cycles. -/
def run_tick (env : TickEnv) (cd : CooldownMap) (t balance risk_pct : ℚ)
    (execute_trades : Bool) (max_units_fx max_units_xau : ℤ) :
    TickResult × CooldownMap :=
  if ¬is_forex_market_open env.weekday env.hour then (⟨[], [], []⟩, cd)
  else if env.signals.isEmpty then (⟨[], [], []⟩, cd)
  else
    let acc := env.signals.foldl
      (tickStep env.place t balance risk_pct execute_trades max_units_fx
        max_units_xau)
      ⟨[], [], [], cd⟩
    (⟨acc.sigs, acc.planned, acc.orders⟩, acc.cd)

/-! ## chaosfx/config.py : Settings -/

/-- The `Settings` fields read by the embedded ChaosFX code.
`CURRENCY_COMPONENTS` is the instrument → currency-list map, read with
default `[]`. -/
structure Settings where
  MAX_PAIRS : ℕ
  FOREX_PAIRS : List String
  RISK_PER_TRADE : ℚ
  MAX_DRAWDOWN_PER_DAY : ℚ
  MAX_OPEN_TRADES : ℕ
  MAX_OPEN_TRADES_EXTENDED : ℕ
  MAX_TOTAL_PORTFOLIO_RISK : ℚ
  KILL_SWITCH_CONSECUTIVE_LOSSES : ℕ
  MIN_RISK_REWARD : ℚ
  PREFERRED_RISK_REWARD : ℚ
  MAX_RISK_REWARD : ℚ
  VOLATILITY_MIN_SCORE : ℚ
  VOLATILITY_TOP_K : ℕ
  VOLATILITY_EXTREME_MULTIPLIER : ℚ
  EXTREME_RISK_FACTOR : ℚ
  ATR_EXPANSION_MULTIPLIER : ℚ
  CONFIDENCE_MIN : ℚ
  MAX_USD_DIRECTIONAL_TRADES : ℕ
  CURRENCY_COMPONENTS : String → List String
  SESSION_ONLY : Bool
  SESSION_UTC_START_HOUR : ℕ
  SESSION_UTC_END_HOUR : ℕ
  RECENT_TRADES_LIMIT : ℕ
  DEFAULT_SL_PIPS : ℚ
  DEFAULT_TP_PIPS : ℚ
  ATR_SL_MULTIPLIER : ℚ

/-- `CURRENCY_COMPONENTS` default value from `config.py`. -/
def currencyComponents (instrument : String) : List String :=
  if instrument = "EUR_USD" then ["EUR", "USD"]
  else if instrument = "GBP_USD" then ["GBP", "USD"]
  else if instrument = "USD_JPY" then ["USD", "JPY"]
  else if instrument = "AUD_USD" then ["AUD", "USD"]
  else if instrument = "USD_CHF" then ["USD", "CHF"]
  else if instrument = "GBP_JPY" then ["GBP", "JPY"]
  else if instrument = "EUR_JPY" then ["EUR", "JPY"]
  else if instrument = "AUD_JPY" then ["AUD", "JPY"]
  else if instrument = "EUR_GBP" then ["EUR", "GBP"]
  else if instrument = "GBP_AUD" then ["GBP", "AUD"]
  else if instrument = "EUR_AUD" then ["EUR", "AUD"]
  else if instrument = "XAU_USD" then ["XAU", "USD"]
  else []

/-- The default `Settings()` instance of `config.py`. -/
def defaultSettings : Settings where
  MAX_PAIRS := 14
  FOREX_PAIRS := ["EUR_USD", "GBP_USD", "USD_JPY", "AUD_USD", "USD_CHF",
    "GBP_JPY", "EUR_JPY", "AUD_JPY", "EUR_GBP", "GBP_AUD", "EUR_AUD",
    "XAU_USD"]
  RISK_PER_TRADE := 2/100
  MAX_DRAWDOWN_PER_DAY := 6/100
  MAX_OPEN_TRADES := 2
  MAX_OPEN_TRADES_EXTENDED := 3
  MAX_TOTAL_PORTFOLIO_RISK := 4/100
  KILL_SWITCH_CONSECUTIVE_LOSSES := 3
  MIN_RISK_REWARD := 2
  PREFERRED_RISK_REWARD := 5/2
  MAX_RISK_REWARD := 3
  VOLATILITY_MIN_SCORE := 3/10000
  VOLATILITY_TOP_K := 2
  VOLATILITY_EXTREME_MULTIPLIER := 9/5
  EXTREME_RISK_FACTOR := 1/2
  ATR_EXPANSION_MULTIPLIER := 23/20
  CONFIDENCE_MIN := 3/2
  MAX_USD_DIRECTIONAL_TRADES := 1
  CURRENCY_COMPONENTS := currencyComponents
  SESSION_ONLY := true
  SESSION_UTC_START_HOUR := 6
  SESSION_UTC_END_HOUR := 22
  RECENT_TRADES_LIMIT := 20
  DEFAULT_SL_PIPS := 15
  DEFAULT_TP_PIPS := 30
  ATR_SL_MULTIPLIER := 3/2

/-! ## chaosfx/risk.py -/

/-- `compute_position_size`: fixed-% risk converted to units, truncated by
Python `int(...)`; explicit zero-stop-distance guard. -/
def compute_position_size (s : Settings) (_instrument : String)
    (account_balance stop_loss_price entry_price : ℚ) : ℤ :=
  let risk_amount := account_balance * s.RISK_PER_TRADE
  let stop_distance := |entry_price - stop_loss_price|
  if stop_distance ≤ 0 then 0
  else truncInt (risk_amount / stop_distance)

/-- `daily_drawdown_exceeded`: returns `(exceeded, drawdown)`. -/
def daily_drawdown_exceeded (s : Settings) (equity start_of_day_equity : ℚ) :
    Bool × ℚ :=
  if start_of_day_equity ≤ 0 then (false, 0)
  else
    let drawdown := (start_of_day_equity - equity) / start_of_day_equity
    (decide (s.MAX_DRAWDOWN_PER_DAY ≤ drawdown), drawdown)

/-- `validate_risk_reward`: returns `(is_valid, actual_rr)`. -/
def validate_risk_reward (s : Settings)
    (entry_price stop_loss_price take_profit_price : ℚ) (side : String) :
    Bool × ℚ :=
  let risk :=
    if side = "LONG" then entry_price - stop_loss_price
    else stop_loss_price - entry_price
  let reward :=
    if side = "LONG" then take_profit_price - entry_price
    else entry_price - take_profit_price
  if risk ≤ 0 then (false, 0)
  else
    let rr := reward / risk
    (decide (s.MIN_RISK_REWARD ≤ rr), rr)

/-- `select_risk_reward_target`: volatility-tiered target R:R. -/
def select_risk_reward_target (s : Settings) (volatility_score : ℚ) : ℚ :=
  let high_vol_threshold := s.VOLATILITY_MIN_SCORE * 2
  let med_vol_threshold := s.VOLATILITY_MIN_SCORE * (3/2)
  if high_vol_threshold ≤ volatility_score then s.MAX_RISK_REWARD
  else if med_vol_threshold ≤ volatility_score then s.PREFERRED_RISK_REWARD
  else s.MIN_RISK_REWARD

/-- An open trade as read from the broker (`get_open_trades`): the fields
the risk engine consumes.  `stopLossOrder` is optional. -/
structure OpenTrade where
  instrument : String
  currentUnits : ℚ
  price : ℚ
  stopLossPrice : Option ℚ

/-- `compute_portfolio_risk`: sum of per-trade risks over equity. -/
def compute_portfolio_risk (open_trades : List OpenTrade) (equity : ℚ) : ℚ :=
  if equity ≤ 0 then 0
  else
    (open_trades.foldl (fun total trade =>
      let units := |trade.currentUnits|
      let sl_price :=
        match trade.stopLossPrice with
        | some p => p
        | none => trade.price
      total + units * |trade.price - sl_price|) 0) / equity

/-- `get_effective_max_trades`: extended cap only while portfolio risk is at
or below the ceiling. -/
def get_effective_max_trades (s : Settings) (portfolio_risk : ℚ) : ℕ :=
  if portfolio_risk ≤ s.MAX_TOTAL_PORTFOLIO_RISK then s.MAX_OPEN_TRADES_EXTENDED
  else s.MAX_OPEN_TRADES

/-- An entry of `closed_trade_results`: the fields the kill switch reads. -/
structure ClosedTrade where
  cumulative_pl : ℚ
  pl : ℚ

/-- `check_consecutive_loss_kill_switch`: last N recorded trades all
strictly negative. -/
def check_consecutive_loss_kill_switch (s : Settings)
    (recent_trades : List ClosedTrade) : Bool :=
  let threshold := s.KILL_SWITCH_CONSECUTIVE_LOSSES
  if recent_trades.length < threshold then false
  else
    (recent_trades.drop (recent_trades.length - threshold)).all
      fun t => decide (t.pl < 0)

/-- `compute_currency_exposure`: signed per-currency unit exposure, as a
finitely-supported map represented by a function updated per trade. -/
def compute_currency_exposure (s : Settings) (open_trades : List OpenTrade) :
    String → ℚ :=
  open_trades.foldl (fun exposure trade =>
    match s.CURRENCY_COMPONENTS trade.instrument with
    | [base_ccy, quote_ccy] =>
      fun c =>
        (if c = base_ccy then trade.currentUnits else 0) +
        (if c = quote_ccy then -trade.currentUnits else 0) + exposure c
    | _ => exposure) (fun _ => 0)

/-- `get_usd_directional_bias`. -/
def get_usd_directional_bias (exposure : String → ℚ) : String :=
  let usd := exposure "USD"
  if 0 < usd then "long_usd"
  else if usd < 0 then "short_usd"
  else "neutral"

/-- USD direction a trade on `instrument` with `side` would add;
`none` when the pair gives no direction (non-2-component mapping). -/
def newUsdDirection (s : Settings) (instrument side : String) :
    Option String :=
  match s.CURRENCY_COMPONENTS instrument with
  | [base_ccy, _] =>
    if base_ccy = "USD" then
      some (if side = "LONG" then "long_usd" else "short_usd")
    else
      some (if side = "LONG" then "short_usd" else "long_usd")
  | _ => none

/-- USD direction of an existing open trade, from its signed units. -/
def tradeUsdDirection (s : Settings) (trade : OpenTrade) : Option String :=
  if ¬(s.CURRENCY_COMPONENTS trade.instrument).contains "USD" then none
  else
    match s.CURRENCY_COMPONENTS trade.instrument with
    | [base_ccy, _] =>
      if base_ccy = "USD" then
        some (if 0 < trade.currentUnits then "long_usd" else "short_usd")
      else
        some (if 0 < trade.currentUnits then "short_usd" else "long_usd")
    | _ => none

/-- `would_stack_usd_exposure`: block a trade that would add a USD
direction already held by `MAX_USD_DIRECTIONAL_TRADES` open trades. -/
def would_stack_usd_exposure (s : Settings) (instrument side : String)
    (open_trades : List OpenTrade) : Bool :=
  if ¬(s.CURRENCY_COMPONENTS instrument).contains "USD" then false
  else
    match newUsdDirection s instrument side with
    | none => false
    | some dir =>
      let count := (open_trades.filter fun t =>
        tradeUsdDirection s t == some dir).length
      decide (s.MAX_USD_DIRECTIONAL_TRADES ≤ count)

/-- `compute_trade_risk_pct`: one trade's risk as a fraction of equity. -/
def compute_trade_risk_pct (entry_price stop_loss_price : ℚ) (units : ℤ)
    (equity : ℚ) : ℚ :=
  if equity ≤ 0 then 0
  else (|units| : ℚ) * |entry_price - stop_loss_price| / equity

/-- `compute_r_multiple`: R-multiple of a closed trade. -/
def compute_r_multiple (entry_price stop_loss_price exit_price : ℚ)
    (side : String) : ℚ :=
  if side = "LONG" then
    let risk := entry_price - stop_loss_price
    if risk ≤ 0 then 0 else (exit_price - entry_price) / risk
  else
    let risk := stop_loss_price - entry_price
    if risk ≤ 0 then 0 else (entry_price - exit_price) / risk

/-! ## chaosfx/strategy.py : indicators over the candle dataframe -/

/-- A raw OANDA candle as consumed by `_candle_df_from_oanda`. -/
structure OandaCandle where
  complete : Bool
  o : ℚ
  h : ℚ
  l : ℚ
  c : ℚ

/-- One row of the OHLC dataframe. -/
structure Row where
  opn : ℚ
  high : ℚ
  low : ℚ
  close : ℚ
deriving DecidableEq, Inhabited

/-- `_candle_df_from_oanda`: keep complete candles only. -/
def rowsOf (candles : List OandaCandle) : List Row :=
  candles.filterMap fun c =>
    if c.complete then some ⟨c.o, c.h, c.l, c.c⟩ else none

/-- `rolling(window=w).mean()` of a total series at index `i`; `none` is the
leading NaN region. -/
def sma (w : ℕ) (xs : List ℚ) (i : ℕ) : Option ℚ :=
  if w ≤ i + 1 ∧ i < xs.length then
    some (((xs.take (i + 1)).drop (i + 1 - w)).sum / (w : ℚ))
  else none

/-- True range at index `i` (`_atr`'s `tr` series; at index 0 the shifted
terms are NaN and the row-wise max skips them). -/
def trAt (rows : List Row) (i : ℕ) : ℚ :=
  let r := rows.getD i default
  if i = 0 then r.high - r.low
  else
    let pc := (rows.getD (i - 1) default).close
    max (r.high - r.low) (max |r.high - pc| |r.low - pc|)

/-- `_atr` (rolling 14-mean of true range) at index `i`. -/
def atrAt (rows : List Row) (i : ℕ) : Option ℚ :=
  if 14 ≤ i + 1 ∧ i < rows.length then
    some (((List.range 14).map fun k => trAt rows (i - 13 + k)).sum / 14)
  else none

/-- `df["atr"].rolling(window=50).mean()` at index `i`: NaN unless the whole
50-window of ATR values is defined. -/
def atrRoll50At (rows : List Row) (i : ℕ) : Option ℚ :=
  if 50 ≤ i + 1 ∧ i < rows.length ∧ 13 ≤ i - 49 then
    some (((List.range 50).map fun k => (atrAt rows (i - 49 + k)).getD 0).sum / 50)
  else none

/-- A pandas `<` comparison: `False` whenever either side is NaN. -/
def optLt (a b : Option ℚ) : Bool :=
  match a, b with
  | some x, some y => decide (x < y)
  | _, _ => false

/-- The volatility score `ATR/close` of the last row (0 on NaN ATR or
non-positive close). -/
def volScore (rows : List Row) : ℚ :=
  let lastC := (rows.getD (rows.length - 1) default).close
  match atrAt rows (rows.length - 1) with
  | some a => if 0 < lastC then a / lastC else 0
  | none => 0

/-- The ATR expansion filter: current ATR strictly above
`ATR_EXPANSION_MULTIPLIER` times the rolling 50-mean of ATR. -/
def atrExpanding (s : Settings) (rows : List Row) : Bool :=
  match atrAt rows (rows.length - 1), atrRoll50At rows (rows.length - 1) with
  | some a, some m => decide (s.ATR_EXPANSION_MULTIPLIER * m < a)
  | _, _ => false

/-- The trend label from the MA relationship plus fast-MA slope
(`iloc[-1]` against `iloc[-5]`). -/
def trendOf (rows : List Row) : String :=
  let closes := rows.map (·.close)
  let n := rows.length
  let maF := sma 10 closes (n - 1)
  let maS := sma 30 closes (n - 1)
  let maF5 := sma 10 closes (n - 5)
  if optLt maS maF ∧ optLt maF5 maF then "UP"
  else if optLt maF maS ∧ optLt maF maF5 then "DOWN"
  else "FLAT"

/-- `_detect_breakout`: last close outside the high/low channel of the
`lookback` bars preceding the final two. -/
def detect_breakout (rows : List Row) (lookback : ℕ) : Bool :=
  if rows.length < lookback + 2 then false
  else
    match (rows.drop (rows.length - (lookback + 2))).take lookback with
    | [] => false
    | x :: xs =>
      let range_high := xs.foldl (fun m r => max m r.high) x.high
      let range_low := xs.foldl (fun m r => min m r.low) x.low
      let last := rows.getD (rows.length - 1) default
      decide (range_high < last.close ∨ last.close < range_low)

/-- `_bullish_engulfing`. -/
def bullish_engulfing (last prev : Row) : Bool :=
  let prev_body := prev.close - prev.opn
  let curr_body := last.close - last.opn
  decide (prev_body < 0 ∧ 0 < curr_body ∧ prev.opn ≤ last.close ∧
    last.opn ≤ prev.close ∧ |prev_body| < |curr_body|)

/-- `_bearish_engulfing`. -/
def bearish_engulfing (last prev : Row) : Bool :=
  let prev_body := prev.close - prev.opn
  let curr_body := last.close - last.opn
  decide (0 < prev_body ∧ curr_body < 0 ∧ last.close ≤ prev.opn ∧
    prev.close ≤ last.opn ∧ |prev_body| < |curr_body|)

/-- `_bullish_pin_bar` over the last 10 rows. -/
def bullish_pin_bar (rows : List Row) : Bool :=
  match rows.drop (rows.length - 10) with
  | [] => false
  | y :: ys =>
    let last := rows.getD (rows.length - 1) default
    let recent := y :: ys
    let min_low := ys.foldl (fun m r => min m r.low) y.low
    let mean_range := (recent.map (fun r => r.high - r.low)).sum / (recent.length : ℚ)
    let body := |last.close - last.opn|
    let lower_wick := min last.opn last.close - last.low
    decide (2 * body < lower_wick ∧ last.low ≤ min_low + (1/4) * mean_range ∧
      last.opn ≤ last.close)

/-- `_bearish_pin_bar` over the last 10 rows. -/
def bearish_pin_bar (rows : List Row) : Bool :=
  match rows.drop (rows.length - 10) with
  | [] => false
  | y :: ys =>
    let last := rows.getD (rows.length - 1) default
    let recent := y :: ys
    let max_high := ys.foldl (fun m r => max m r.high) y.high
    let mean_range := (recent.map (fun r => r.high - r.low)).sum / (recent.length : ℚ)
    let body := |last.close - last.opn|
    let upper_wick := last.high - max last.opn last.close
    decide (2 * body < upper_wick ∧ max_high - (1/4) * mean_range ≤ last.high ∧
      last.close ≤ last.opn)

/-- `_pip_factor` of `chaosfx/strategy.py`. -/
def pip_factor (instrument : String) : ℚ :=
  if containsSub instrument "JPY" then 1/100
  else if containsSub instrument "XAU" then 1/100
  else 1/10000

/-! ## chaosfx/strategy.py : generate_signal -/

/-- The ChaosFX `Signal` dataclass. -/
structure ChaosSignal where
  side : String
  stop_loss : Option ℚ
  take_profit : Option ℚ
  reason : String
  risk_reward : ℚ
deriving DecidableEq

/-- The meta dict fields that the engine reads back. -/
structure SignalMeta where
  volatility : ℚ
  confidence : ℚ
  atr_expanding : Bool
  breakout_confirmed : Bool
  trend_aligned : Bool
  risk_reward : ℚ
  opportunity_score : ℚ
deriving DecidableEq

/-- `flat_meta`. -/
def flatMeta : SignalMeta := ⟨0, 0, false, false, false, 0, 0⟩

/-- The candlestick-pattern cascade: `(side, reason, pattern_strength)`. -/
def patternSignal (rows : List Row) (trend : String) : String × String × ℚ :=
  let last := rows.getD (rows.length - 1) default
  let prev := rows.getD (rows.length - 2) default
  let bull_engulf := bullish_engulfing last prev
  let bear_engulf := bearish_engulfing last prev
  let bull_pin := bullish_pin_bar rows
  let bear_pin := bearish_pin_bar rows
  if trend = "UP" ∧ (bull_engulf ∨ bull_pin) then
    if bull_engulf ∧ bull_pin then
      ("LONG", "aggressive_trend_up_breakout_engulf+pin", 3/2)
    else if bull_engulf then ("LONG", "aggressive_trend_up_breakout_engulf", 6/5)
    else ("LONG", "aggressive_trend_up_breakout_pin", 1)
  else if trend = "DOWN" ∧ (bear_engulf ∨ bear_pin) then
    if bear_engulf ∧ bear_pin then
      ("SHORT", "aggressive_trend_down_breakout_engulf+pin", 3/2)
    else if bear_engulf then
      ("SHORT", "aggressive_trend_down_breakout_engulf", 6/5)
    else ("SHORT", "aggressive_trend_down_breakout_pin", 1)
  else ("FLAT", "no_signal", 0)

/-- `atr_in_pips` of the SL/TP construction: last ATR over the pip factor,
0 on NaN. -/
def atrInPips (instrument : String) (rows : List Row) : ℚ :=
  match atrAt rows (rows.length - 1) with
  | some a => a / pip_factor instrument
  | none => 0

/-- `dyn_sl_pips`: the ATR-widened stop distance in pips. -/
def dynSlPips (s : Settings) (instrument : String) (rows : List Row)
    (sl_pips : ℚ) : ℚ :=
  if 0 < atrInPips instrument rows then
    max sl_pips (atrInPips instrument rows * s.ATR_SL_MULTIPLIER)
  else sl_pips

/-- `dyn_tp_pips`: the take-profit distance forced to meet the target
R:R. -/
def dynTpPips (s : Settings) (instrument : String) (rows : List Row)
    (sl_pips tp_pips target_rr : ℚ) : ℚ :=
  if 0 < atrInPips instrument rows then
    max tp_pips (dynSlPips s instrument rows sl_pips * target_rr)
  else max tp_pips (sl_pips * target_rr)

/-- The ATR-based SL/TP construction with R:R enforcement (the tail of
`generate_signal`, entered only with `side ∈ {LONG, SHORT}`).  The source's
`rr_too_low` reason string carries the formatted R:R value; the embedding
keeps the constant prefix. -/
def sltpStage (s : Settings) (instrument : String) (rows : List Row)
    (sl_pips tp_pips : ℚ) (side reason : String) (pattern_strength : ℚ) :
    ChaosSignal × SignalMeta :=
  let n := rows.length
  let last := rows.getD (n - 1) default
  let price := last.close
  let pf := pip_factor instrument
  let vol_score := volScore rows
  let target_rr := select_risk_reward_target s vol_score
  let dyn_sl_pips := dynSlPips s instrument rows sl_pips
  let dyn_tp_pips := dynTpPips s instrument rows sl_pips tp_pips target_rr
  let sl_distance := dyn_sl_pips * pf
  let tp_distance := dyn_tp_pips * pf
  let stop_loss := if side = "LONG" then price - sl_distance else price + sl_distance
  let take_profit := if side = "LONG" then price + tp_distance else price - tp_distance
  let v := validate_risk_reward s price stop_loss take_profit side
  if ¬v.1 then
    (⟨"FLAT", none, none, "rr_too_low", v.2⟩,
     { flatMeta with
         volatility := vol_score
         atr_expanding := true
         breakout_confirmed := true
         trend_aligned := true
         risk_reward := v.2 })
  else
    let vol_component :=
      if 0 < vol_score ∧ 0 < s.VOLATILITY_MIN_SCORE then
        min (vol_score / s.VOLATILITY_MIN_SCORE) 2
      else 0
    let confidence := vol_component + pattern_strength + 1
    let atr_expansion_r :=
      match atrAt rows (n - 1), atrRoll50At rows (n - 1) with
      | some a, some m => if 0 < m then a / m else 0
      | _, _ => 0
    let closes := rows.map (·.close)
    let trend_strength :=
      match sma 10 closes (n - 1), sma 30 closes (n - 1) with
      | some f, some sl' => if 0 < last.close then |f - sl'| / last.close else 0
      | _, _ => 0
    let opportunity_score :=
      atr_expansion_r * (4/10) + pattern_strength * (3/10) +
        trend_strength * 10000 * (3/10)
    (⟨side, some stop_loss, some take_profit, reason, v.2⟩,
     ⟨vol_score, confidence, true, true, true, v.2, opportunity_score⟩)

/-- `generate_signal`: the AGGRESSIVE-MODE strategy pipeline, returning
the signal, the parsed dataframe rows, and the meta dict. -/
def generate_signal (s : Settings) (instrument : String)
    (candles : List OandaCandle) (sl_pips tp_pips : ℚ) :
    ChaosSignal × List Row × SignalMeta :=
  let rows := rowsOf candles
  if rows.length < 60 then
    (⟨"FLAT", none, none, "not_enough_data", 0⟩, rows, flatMeta)
  else
    let vol_score := volScore rows
    let atr_exp := atrExpanding s rows
    let trend := trendOf rows
    let trend_aligned : Bool := trend ≠ "FLAT"
    let breakout_confirmed := detect_breakout rows 20
    if ¬atr_exp then
      (⟨"FLAT", none, none, "atr_not_expanding", 0⟩, rows,
       { flatMeta with
         volatility := vol_score
         breakout_confirmed := breakout_confirmed
         trend_aligned := trend_aligned })
    else if ¬trend_aligned then
      (⟨"FLAT", none, none, "no_trend_alignment_ranging", 0⟩, rows,
       { flatMeta with
         volatility := vol_score
         atr_expanding := true
         breakout_confirmed := breakout_confirmed })
    else if ¬breakout_confirmed then
      (⟨"FLAT", none, none, "no_breakout_structure", 0⟩, rows,
       { flatMeta with
         volatility := vol_score
         atr_expanding := true
         trend_aligned := true })
    else
      let ps := patternSignal rows trend
      if ps.1 = "FLAT" then
        (⟨"FLAT", none, none, ps.2.1, 0⟩, rows,
         { flatMeta with
           volatility := vol_score
           atr_expanding := true
           breakout_confirmed := true
           trend_aligned := true })
      else
        let r := sltpStage s instrument rows sl_pips tp_pips ps.1 ps.2.1 ps.2.2
        (r.1, rows, r.2)

/-! ## chaosfx/engine.py : state, history recording, run_once -/

/-- `_in_trading_session`. -/
def in_trading_session (s : Settings) (hour : ℕ) : Bool :=
  if ¬s.SESSION_ONLY then true
  else decide (s.SESSION_UTC_START_HOUR ≤ hour ∧ hour < s.SESSION_UTC_END_HOUR)

/-- `action_info`: the dict appended to `actions` and recorded in
`recent_trades` for one executed trade (ISO-timestamp field omitted). -/
structure TradeAction where
  pair : String
  side : String
  units : ℤ
  entry_price : ℚ
  stop_loss : ℚ
  take_profit : ℚ
  reason : String
  volatility : ℚ
  confidence : ℚ
  surge_mode : Bool
  order_response : String
  risk_pct : ℚ
  portfolio_risk_pct : ℚ
  risk_reward : ℚ
  opportunity_score : ℚ
  currency_exposure : String → ℚ

/-- The per-cycle summary dict (ISO-timestamp field omitted). -/
structure RunSummary where
  equity : ℚ
  actions : List TradeAction
  reason : String
  surge_mode : Bool
  portfolio_risk_pct : ℚ
  currency_exposure : String → ℚ

/-- The engine's long-lived mutable state. -/
structure EngineState where
  last_day : ℕ
  start_of_day_equity : ℚ
  recent_runs : List RunSummary
  recent_trades : List TradeAction
  closed_trade_results : List ClosedTrade

/-- The world one `run_once` cycle observes through the OANDA client and
the clock: today's date, weekday/hour, account NAV and realized P/L, open
trades, per-instrument candles, and the order endpoint
(`create_market_order`, whose failure is the `Except.error` case). -/
structure EngineEnv where
  today : ℕ
  weekday : ℕ
  hour : ℕ
  equity : ℚ
  account_pl : ℚ
  open_trades : List OpenTrade
  candles : String → List OandaCandle
  create_order : String → ℤ → ℚ → ℚ → Except String String

/-- `_record_run`: append, keep at most the last 100. -/
def record_run (recent_runs : List RunSummary) (summary : RunSummary) :
    List RunSummary :=
  let h2 := recent_runs ++ [summary]
  if 100 < h2.length then h2.drop (h2.length - 100) else h2

/-- `_record_trade`: append, keep at most the last `RECENT_TRADES_LIMIT`
(Python `lst[-0:]` is the whole list, hence the zero case). -/
def record_trade (s : Settings) (recent_trades : List TradeAction)
    (trade : TradeAction) : List TradeAction :=
  let h2 := recent_trades ++ [trade]
  if s.RECENT_TRADES_LIMIT < h2.length then
    if s.RECENT_TRADES_LIMIT = 0 then h2
    else h2.drop (h2.length - s.RECENT_TRADES_LIMIT)
  else h2

/-- `_refresh_daily_equity_anchor`. -/
def refresh_daily_equity_anchor (env : EngineEnv) (st : EngineState) :
    EngineState :=
  if env.today ≠ st.last_day then
    { st with last_day := env.today, start_of_day_equity := env.equity }
  else st

/-- `_update_closed_trades`: infer a closed trade from a change of the
account's cumulative realized P/L. -/
def update_closed_trades (env : EngineEnv) (st : EngineState) : EngineState :=
  match st.closed_trade_results.getLast? with
  | some last =>
    if env.account_pl ≠ last.cumulative_pl then
      { st with closed_trade_results := st.closed_trade_results ++
          [⟨env.account_pl, env.account_pl - last.cumulative_pl⟩] }
    else st
  | none =>
    { st with closed_trade_results := st.closed_trade_results ++
        [⟨env.account_pl, 0⟩] }

/-- One per-pair analysis record of the scan phase. -/
structure Analysis where
  pair : String
  signal : ChaosSignal
  rows : List Row
  volatility : ℚ
  confidence : ℚ
  opportunity_score : ℚ
  risk_reward : ℚ
deriving DecidableEq

/-- The `ANALYZE ALL PAIRS` loop of `run_once`. -/
def analyze_pairs (s : Settings) (env : EngineEnv) : List Analysis :=
  (s.FOREX_PAIRS.take s.MAX_PAIRS).map fun pair =>
    let r := generate_signal s pair (env.candles pair) s.DEFAULT_SL_PIPS
      s.DEFAULT_TP_PIPS
    ⟨pair, r.1, r.2.1, r.2.2.volatility, r.2.2.confidence,
      r.2.2.opportunity_score, r.2.2.risk_reward⟩

/-- Accumulator of the execute loop: executed actions, the rolling trade
history, the running portfolio risk, and the early-stop flag. -/
structure ExecAcc where
  actions : List TradeAction
  recent_trades : List TradeAction
  portfolio_risk : ℚ
  done : Bool

/-- One iteration of the `EXECUTE ON TOP-K CANDIDATES` loop; every skip
(`continue`) and the caught per-pair exception return the accumulator
unchanged. -/
def execStep (s : Settings) (env : EngineEnv) (equity : ℚ)
    (surge_mode : Bool) (extreme_threshold : ℚ)
    (effective_max_trades : ℕ) (acc : ExecAcc) (a : Analysis) : ExecAcc :=
  if acc.done then acc
  else if env.open_trades.any (fun t => t.instrument == a.pair) then acc
  else if a.signal.side = "FLAT" ∨ a.confidence < s.CONFIDENCE_MIN then acc
  else if would_stack_usd_exposure s a.pair a.signal.side env.open_trades then
    acc
  else
    match a.rows.getLast?, a.signal.stop_loss, a.signal.take_profit with
    | some lastRow, some sl, some tp =>
      let last_price := lastRow.close
      let surge_for_this_pair := surge_mode ∧ extreme_threshold ≤ a.volatility
      let effective_equity :=
        if surge_for_this_pair then equity * s.EXTREME_RISK_FACTOR else equity
      let units0 := compute_position_size s a.pair effective_equity sl
        last_price
      if units0 ≤ 0 then acc
      else
        let units := if a.signal.side = "SHORT" then -|units0| else |units0|
        let trade_risk_pct := compute_trade_risk_pct last_price sl units equity
        let new_total_risk := acc.portfolio_risk + trade_risk_pct
        if s.MAX_TOTAL_PORTFOLIO_RISK < new_total_risk then acc
        else
          match env.create_order a.pair units sl tp with
          | .error _ => acc
          | .ok resp =>
            let action : TradeAction :=
              ⟨a.pair, a.signal.side, units, last_price, sl, tp,
                a.signal.reason, a.volatility, a.confidence,
                surge_for_this_pair, resp, trade_risk_pct * 100,
                new_total_risk * 100, a.risk_reward, a.opportunity_score,
                compute_currency_exposure s env.open_trades⟩
            ⟨acc.actions ++ [action],
              record_trade s acc.recent_trades action,
              new_total_risk,
              decide (effective_max_trades ≤ env.open_trades.length)⟩
    | _, _, _ => acc

/-- `run_once`: one scan-execute cycle.  Returns the summary and the
updated engine state. -/
def run_once (s : Settings) (env : EngineEnv) (st : EngineState) :
    RunSummary × EngineState :=
  let st := refresh_daily_equity_anchor env st
  let st := update_closed_trades env st
  if ¬is_forex_market_open env.weekday env.hour then
    let summary : RunSummary := ⟨0, [], "market_closed", false, 0, fun _ => 0⟩
    (summary, { st with recent_runs := record_run st.recent_runs summary })
  else
    let equity := env.equity
    let portfolio_risk := compute_portfolio_risk env.open_trades equity
    let currency_exposure := compute_currency_exposure s env.open_trades
    let effective_max_trades := get_effective_max_trades s portfolio_risk
    let in_session := in_trading_session s env.hour
    if (daily_drawdown_exceeded s equity st.start_of_day_equity).1 then
      let summary : RunSummary := ⟨equity, [],
        "kill_switch_daily_drawdown_exceeded", false, portfolio_risk * 100,
        currency_exposure⟩
      (summary, { st with recent_runs := record_run st.recent_runs summary })
    else if check_consecutive_loss_kill_switch s st.closed_trade_results then
      let summary : RunSummary := ⟨equity, [],
        "kill_switch_consecutive_losses", false, portfolio_risk * 100,
        currency_exposure⟩
      (summary, { st with recent_runs := record_run st.recent_runs summary })
    else if effective_max_trades ≤ env.open_trades.length then
      let summary : RunSummary := ⟨equity, [], "max_open_trades_reached",
        false, portfolio_risk * 100, currency_exposure⟩
      (summary, { st with recent_runs := record_run st.recent_runs summary })
    else
      let analyses := analyze_pairs s env
      let extreme_threshold :=
        s.VOLATILITY_MIN_SCORE * s.VOLATILITY_EXTREME_MULTIPLIER
      let extreme_pairs := analyses.filter fun a =>
        decide (extreme_threshold ≤ a.volatility)
      if ¬in_session ∧ extreme_pairs.isEmpty then
        let summary : RunSummary := ⟨equity, [], "outside_session_hours",
          false, portfolio_risk * 100, currency_exposure⟩
        (summary, { st with recent_runs := record_run st.recent_runs summary })
      else
        let surge_mode : Bool := ¬in_session ∧ ¬extreme_pairs.isEmpty
        let hot := analyses.filter fun a =>
          decide (s.VOLATILITY_MIN_SCORE ≤ a.volatility)
        if hot.isEmpty then
          let summary : RunSummary := ⟨equity, [],
            "no_pairs_above_vol_threshold", surge_mode, portfolio_risk * 100,
            currency_exposure⟩
          (summary,
            { st with recent_runs := record_run st.recent_runs summary })
        else
          let candidate_list :=
            if surge_mode ∧ ¬in_session then
              extreme_pairs.mergeSort fun a b =>
                decide (b.opportunity_score ≤ a.opportunity_score)
            else
              hot.mergeSort fun a b =>
                decide (b.opportunity_score ≤ a.opportunity_score)
          let res := (candidate_list.take s.VOLATILITY_TOP_K).foldl
            (execStep s env equity surge_mode extreme_threshold
              effective_max_trades)
            ⟨[], st.recent_trades, portfolio_risk, false⟩
          let reason :=
            if res.actions.isEmpty then "no_valid_signals_in_hot_pairs"
            else "completed"
          let summary : RunSummary := ⟨equity, res.actions, reason,
            surge_mode, res.portfolio_risk * 100, currency_exposure⟩
          (summary,
            { st with
                recent_trades := res.recent_trades
                recent_runs := record_run st.recent_runs summary })

/-! ## Shared helper lemmas -/

/-- A `foldl max` is below a bound iff the seed and every element are. -/
theorem foldl_max_lt {α : Type} (f : α → ℚ) (y : ℚ) :
    ∀ (xs : List α) (a : ℚ),
      (xs.foldl (fun m c => max m (f c)) a < y ↔ a < y ∧ ∀ b ∈ xs, f b < y) := by
  intro xs
  induction xs with
  | nil => simp
  | cons x xs ih =>
    intro a
    simp only [List.foldl_cons, ih, max_lt_iff, List.mem_cons]
    constructor
    · rintro ⟨⟨h1, h2⟩, h3⟩
      exact ⟨h1, fun b hb => hb.elim (fun e => e ▸ h2) (h3 b)⟩
    · rintro ⟨h1, h2⟩
      exact ⟨⟨h1, h2 x (Or.inl rfl)⟩, fun b hb => h2 b (Or.inr hb)⟩

/-- A bound is below a `foldl min` iff it is below the seed and every
element. -/
theorem lt_foldl_min {α : Type} (f : α → ℚ) (y : ℚ) :
    ∀ (xs : List α) (a : ℚ),
      (y < xs.foldl (fun m c => min m (f c)) a ↔ y < a ∧ ∀ b ∈ xs, y < f b) := by
  intro xs
  induction xs with
  | nil => simp
  | cons x xs ih =>
    intro a
    simp only [List.foldl_cons, ih, lt_min_iff, List.mem_cons]
    constructor
    · rintro ⟨⟨h1, h2⟩, h3⟩
      exact ⟨h1, fun b hb => hb.elim (fun e => e ▸ h2) (h3 b)⟩
    · rintro ⟨h1, h2⟩
      exact ⟨⟨h1, h2 x (Or.inl rfl)⟩, fun b hb => h2 b (Or.inr hb)⟩

/-! ## Claim C7 : daily drawdown check -/

/-- Claim C7: for every equity and positive start-of-day anchor the daily
drawdown check computes `(anchor − equity) / anchor` and reports exceeded
exactly when that drawdown reaches the configured ceiling;  with a ceiling
of 0.03, equity 9600 against anchor 10000 is exceeded (drawdown 0.04) and
equity 9800 is not. -/
theorem daily_drawdown_spec :
    (∀ (s : Settings) (equity anchor : ℚ), 0 < anchor →
      daily_drawdown_exceeded s equity anchor =
        (decide (s.MAX_DRAWDOWN_PER_DAY ≤ (anchor - equity) / anchor),
         (anchor - equity) / anchor)) ∧
    (daily_drawdown_exceeded
        { defaultSettings with MAX_DRAWDOWN_PER_DAY := 3/100 } 9600 10000 =
      (true, 1/25) ∧
     daily_drawdown_exceeded
        { defaultSettings with MAX_DRAWDOWN_PER_DAY := 3/100 } 9800 10000 =
      (false, 1/50)) := by
  refine ⟨fun s equity anchor h => ?_, by decide, by decide⟩
  unfold daily_drawdown_exceeded
  rw [if_neg (by linarith)]

/-- Witness for C7 at a concrete input. -/
theorem daily_drawdown_spec_witness :
    daily_drawdown_exceeded defaultSettings 9600 10000 =
      (decide (defaultSettings.MAX_DRAWDOWN_PER_DAY ≤ (10000 - 9600) / 10000),
       (10000 - 9600) / 10000) :=
  daily_drawdown_spec.1 defaultSettings 9600 10000 (by norm_num)

/-! ## Claim C2 : position sizing -/

/-- Claim C2 (amended): for every nonnegative balance and nonnegative
configured risk fraction, `compute_position_size` returns the floored
risk-amount-over-stop-distance, is never negative, and a zero stop distance
yields exactly zero via the explicit guard; the liquidity-path sizing
(`int(_calc_position_size(...))`) is never negative for every input and its
example instance `balance=10000, risk_pct=0.5, entry=1.0800, stop=1.0785`
yields 33333 units.  (The unamended claim fails for a negative balance: see
the counterexample.) -/
theorem position_sizing_spec :
    (∀ (s : Settings) (instrument : String) (balance sl entry : ℚ),
      0 ≤ balance → 0 ≤ s.RISK_PER_TRADE →
      0 ≤ compute_position_size s instrument balance sl entry ∧
      (entry = sl → compute_position_size s instrument balance sl entry = 0) ∧
      (entry ≠ sl → compute_position_size s instrument balance sl entry =
        ⌊balance * s.RISK_PER_TRADE / |entry - sl|⌋)) ∧
    (∀ balance risk_pct entry stop_loss : ℚ,
      0 ≤ truncInt (calc_position_size balance risk_pct entry stop_loss) ∧
      (stop_loss = entry → calc_position_size balance risk_pct entry stop_loss = 0)) ∧
    truncInt (calc_position_size 10000 (1/2) (10800/10000) (10785/10000)) =
      33333 := by
  refine ⟨fun s instrument balance sl entry hb hr => ?_,
    fun balance risk_pct entry stop_loss => ?_, by decide⟩
  · have habs : (0:ℚ) ≤ |entry - sl| := abs_nonneg _
    unfold compute_position_size
    by_cases hz : |entry - sl| ≤ 0
    · have : entry = sl := by
        have : |entry - sl| = 0 := le_antisymm hz habs
        have := abs_eq_zero.mp this
        linarith
      refine ⟨by simp [hz], fun _ => by simp [hz], fun hne => absurd this hne⟩
    · have hpos : 0 < |entry - sl| := lt_of_not_ge hz
      have hq : 0 ≤ balance * s.RISK_PER_TRADE / |entry - sl| :=
        div_nonneg (mul_nonneg hb hr) habs
      have : entry ≠ sl := by
        intro h
        rw [h] at hpos
        simp at hpos
      refine ⟨?_, fun he => absurd he this, fun _ => ?_⟩
      · rw [if_neg hz]
        unfold truncInt
        rw [if_neg (not_lt.mpr hq)]
        exact Int.floor_nonneg.mpr hq
      · rw [if_neg hz]
        unfold truncInt
        rw [if_neg (not_lt.mpr hq)]
  · constructor
    · unfold calc_position_size truncInt
      by_cases hz : |entry - stop_loss| ≤ 0
      · simp [hz]
      · rw [if_neg hz]
        have : (0:ℚ) ≤ max (balance * (risk_pct / 100) / |entry - stop_loss|) 0 :=
          le_max_right _ _
        rw [if_neg (not_lt.mpr this)]
        exact Int.floor_nonneg.mpr this
    · intro h
      unfold calc_position_size
      rw [if_pos (by rw [h]; simp)]

/-- Witness for C2 at concrete inputs. -/
theorem position_sizing_spec_witness :
    0 ≤ compute_position_size defaultSettings "EUR_USD" 10000 (10785/10000)
      (10800/10000) :=
  (position_sizing_spec.1 defaultSettings "EUR_USD" 10000 (10785/10000)
    (10800/10000) (by norm_num) (by decide)).1

/-- Counterexample to C2 as frozen: with a negative balance the ChaosFX
sizing function returns a negative unit count (`int(-200 / 0.0015)`), so
"the result is never negative" fails without the nonnegative-balance
restriction. -/
theorem position_sizing_negative_balance :
    compute_position_size defaultSettings "EUR_USD" (-10000) (10785/10000)
        (10800/10000) = -133333 ∧
    compute_position_size defaultSettings "EUR_USD" (-10000) (10785/10000)
        (10800/10000) < 0 := by
  constructor <;> decide

/-! ## Claim C8 : RR construction -/

/-- Every signal `signal_for` emits got its entry from the last 5-minute
close and its SL/TP from `calc_sl_tp` at its own `rr`. -/
theorem signal_for_shape (market : MarketData) (symbol : String)
    (sig : LiqSignal) (h : signal_for market symbol = some sig) :
    ∃ (sweep : SweepResult) (entry buffer : ℚ),
      sig.entry = entry ∧
      sig.stop_loss = (calc_sl_tp entry sweep.side sweep sig.rr buffer).1 ∧
      sig.take_profit = (calc_sl_tp entry sweep.side sweep sig.rr buffer).2 := by
  simp only [signal_for] at h
  split at h; · exact Option.noConfusion h
  split at h; · exact Option.noConfusion h
  split at h; · exact Option.noConfusion h
  split at h; · exact Option.noConfusion h
  split at h; · exact Option.noConfusion h
  split at h
  · exact Option.noConfusion h
  · rename_i sweep hsweep
    split at h; · exact Option.noConfusion h
    split at h; · exact Option.noConfusion h
    rename_i last hlast
    obtain rfl : _ = sig := Option.some_inj.mp h
    exact ⟨sweep, last.close, 3 * PIP_FACTOR symbol, rfl, rfl, rfl⟩

/-- Claim C8: `_calc_sl_tp` places the long stop at the sweep low minus the
buffer with `tp − entry = (entry − sl) · rr`, mirrored on the short side
(`entry − tp = (sl − entry) · rr`), so whenever `entry ≠ sl` the ratio
`(tp − entry)/(entry − sl)` equals `rr`; consequently every emitted
liquidity signal with `entry ≠ stop_loss` satisfies
`(take_profit − entry)/(entry − stop_loss) = rr`. -/
theorem calc_sl_tp_rr_spec :
    (∀ (entry : ℚ) (sweep : SweepResult) (rr buffer : ℚ), 0 < rr → 0 ≤ buffer →
      (calc_sl_tp entry .long sweep rr buffer).1 = sweep.candle.low - buffer ∧
      (calc_sl_tp entry .long sweep rr buffer).2 - entry =
        (entry - (calc_sl_tp entry .long sweep rr buffer).1) * rr ∧
      (calc_sl_tp entry .short sweep rr buffer).1 = sweep.candle.high + buffer ∧
      entry - (calc_sl_tp entry .short sweep rr buffer).2 =
        ((calc_sl_tp entry .short sweep rr buffer).1 - entry) * rr) ∧
    (∀ (entry : ℚ) (side : TradeSide) (sweep : SweepResult) (rr buffer : ℚ),
      entry ≠ (calc_sl_tp entry side sweep rr buffer).1 →
      ((calc_sl_tp entry side sweep rr buffer).2 - entry) /
        (entry - (calc_sl_tp entry side sweep rr buffer).1) = rr) ∧
    (∀ (market : MarketData) (now_utc : ℕ) (sig : LiqSignal),
      sig ∈ generate_signals market now_utc → sig.entry ≠ sig.stop_loss →
      (sig.take_profit - sig.entry) / (sig.entry - sig.stop_loss) = sig.rr) := by
  have key : ∀ (entry : ℚ) (side : TradeSide) (sweep : SweepResult)
      (rr buffer : ℚ),
      entry ≠ (calc_sl_tp entry side sweep rr buffer).1 →
      ((calc_sl_tp entry side sweep rr buffer).2 - entry) /
        (entry - (calc_sl_tp entry side sweep rr buffer).1) = rr := by
    intro entry side sweep rr buffer hne
    cases side
    case long =>
      simp only [calc_sl_tp] at hne ⊢
      have hd : entry - (sweep.candle.low - buffer) ≠ 0 := sub_ne_zero.mpr hne
      rw [show entry + (entry - (sweep.candle.low - buffer)) * rr - entry =
            (entry - (sweep.candle.low - buffer)) * rr by ring]
      exact mul_div_cancel_left₀ rr hd
    case short =>
      simp only [calc_sl_tp] at hne ⊢
      have hd : entry - (sweep.candle.high + buffer) ≠ 0 := sub_ne_zero.mpr hne
      rw [show entry - (sweep.candle.high + buffer - entry) * rr - entry =
            (entry - (sweep.candle.high + buffer)) * rr by ring]
      exact mul_div_cancel_left₀ rr hd
  refine ⟨?_, key, ?_⟩
  · intro entry sweep rr buffer _ _
    exact ⟨rfl, by simp only [calc_sl_tp]; ring, rfl,
      by simp only [calc_sl_tp]; ring⟩
  · intro market now_utc sig hmem hne
    simp only [generate_signals, List.mem_filterMap] at hmem
    obtain ⟨symbol, -, hsf⟩ := hmem
    obtain ⟨sweep, entry, buffer, he, hsl, htp⟩ :=
      signal_for_shape market symbol sig hsf
    rw [he, hsl] at hne
    rw [he, hsl, htp]
    exact key entry sweep.side sweep sig.rr buffer hne

/-- Witness for C8 at a concrete long setup (entry 1.100, sweep low 1.0953,
buffer 0.0003, rr 3). -/
theorem calc_sl_tp_rr_spec_witness :
    (calc_sl_tp (11/10) .long
        ⟨⟨0, 11/10, 11/10, 10953/10000, 11/10⟩, ⟨10953/10000, .PDL⟩, .long⟩
        3 (3/10000)).1 = 10953/10000 - 3/10000 ∧
    (calc_sl_tp (11/10) .long
        ⟨⟨0, 11/10, 11/10, 10953/10000, 11/10⟩, ⟨10953/10000, .PDL⟩, .long⟩
        3 (3/10000)).2 - 11/10 =
      (11/10 - (calc_sl_tp (11/10) .long
        ⟨⟨0, 11/10, 11/10, 10953/10000, 11/10⟩, ⟨10953/10000, .PDL⟩, .long⟩
        3 (3/10000)).1) * 3 :=
  ⟨(calc_sl_tp_rr_spec.1 (11/10)
      ⟨⟨0, 11/10, 11/10, 10953/10000, 11/10⟩, ⟨10953/10000, .PDL⟩, .long⟩
      3 (3/10000) (by norm_num) (by norm_num)).1,
   (calc_sl_tp_rr_spec.1 (11/10)
      ⟨⟨0, 11/10, 11/10, 10953/10000, 11/10⟩, ⟨10953/10000, .PDL⟩, .long⟩
      3 (3/10000) (by norm_num) (by norm_num)).2.1⟩



/-! ## Claim C3 : sweep detection -/

/-- Claim C3: for a non-empty window and non-empty level list, under a
bullish bias `_detect_sweep` returns a long sweep iff the last bar has
positive range, its lower-wick ratio is at least the configured minimum,
and some level satisfies `low < price ≤ close`; the result carries the
first such level in list order.  Mirrored for the bearish bias with the
upper-wick ratio and `high > price ≥ close`. -/
theorem detect_sweep_spec :
    ∀ (candles_5m : List Candle) (levels : List LiquidityLevel)
      (cfg : LiquiditySweepConfig) (last : Candle),
      candles_5m.getLast? = some last → levels ≠ [] →
      (detect_sweep candles_5m levels "bullish" cfg =
        (if 0 < last.high - last.low ∧ cfg.min_wick_ratio ≤
            (min last.opn last.close - last.low) / (last.high - last.low) then
          (levels.find? fun l =>
            decide (last.low < l.price ∧ l.price ≤ last.close)).map
            (fun l => SweepResult.mk last l .long)
         else none)) ∧
      (detect_sweep candles_5m levels "bearish" cfg =
        (if 0 < last.high - last.low ∧ cfg.min_wick_ratio ≤
            (last.high - max last.opn last.close) / (last.high - last.low) then
          (levels.find? fun l =>
            decide (last.close ≤ l.price ∧ l.price < last.high)).map
            (fun l => SweepResult.mk last l .short)
         else none)) ∧
      ((∃ r, detect_sweep candles_5m levels "bullish" cfg = some r) ↔
        (0 < last.high - last.low ∧
         cfg.min_wick_ratio ≤
           (min last.opn last.close - last.low) / (last.high - last.low) ∧
         ∃ l ∈ levels, last.low < l.price ∧ l.price ≤ last.close)) := by
  intro candles_5m levels cfg last hlast hne
  have hle : levels.isEmpty = false := by
    cases levels
    · exact absurd rfl hne
    · rfl
  have hbull : detect_sweep candles_5m levels "bullish" cfg =
      (if 0 < last.high - last.low ∧ cfg.min_wick_ratio ≤
          (min last.opn last.close - last.low) / (last.high - last.low) then
        (levels.find? fun l =>
          decide (last.low < l.price ∧ l.price ≤ last.close)).map
          (fun l => SweepResult.mk last l .long)
       else none) := by
    unfold detect_sweep
    split
    · rename_i heq
      rw [hlast] at heq
      exact Option.noConfusion heq
    · rename_i last' heq
      rw [hlast] at heq
      injection heq with heq'
      subst heq'
      rw [hle]
      rw [if_neg Bool.false_ne_true]
      dsimp only
      by_cases hr : last.high - last.low ≤ 0
      · rw [if_pos hr, if_neg (by rintro ⟨h1, -⟩; exact absurd h1 (not_lt.mpr hr))]
      · rw [if_neg hr]
        rw [if_neg (c := ("bullish":String) = "bearish" ∧ cfg.min_wick_ratio ≤
            (last.high - max last.opn last.close) / (last.high - last.low))
          (fun h => absurd h.1 (by decide))]
        rw [Option.or_none]
        by_cases hw : cfg.min_wick_ratio ≤
            (min last.opn last.close - last.low) / (last.high - last.low)
        · rw [if_pos ⟨rfl, hw⟩, if_pos ⟨lt_of_not_ge hr, hw⟩]
        · rw [if_neg (fun h => hw h.2), if_neg (fun h => hw h.2)]
  refine ⟨hbull, ?_, ?_⟩
  · unfold detect_sweep
    split
    · rename_i heq
      rw [hlast] at heq
      exact Option.noConfusion heq
    · rename_i last' heq
      rw [hlast] at heq
      injection heq with heq'
      subst heq'
      rw [hle]
      rw [if_neg Bool.false_ne_true]
      dsimp only
      by_cases hr : last.high - last.low ≤ 0
      · rw [if_pos hr, if_neg (by rintro ⟨h1, -⟩; exact absurd h1 (not_lt.mpr hr))]
      · rw [if_neg hr]
        rw [if_neg (c := ("bearish":String) = "bullish" ∧ cfg.min_wick_ratio ≤
            (min last.opn last.close - last.low) / (last.high - last.low))
          (fun h => absurd h.1 (by decide))]
        rw [Option.none_or]
        by_cases hw : cfg.min_wick_ratio ≤
            (last.high - max last.opn last.close) / (last.high - last.low)
        · rw [if_pos ⟨rfl, hw⟩, if_pos ⟨lt_of_not_ge hr, hw⟩]
        · rw [if_neg (fun h => hw h.2), if_neg (fun h => hw h.2)]
  · rw [hbull]
    by_cases hc : 0 < last.high - last.low ∧ cfg.min_wick_ratio ≤
        (min last.opn last.close - last.low) / (last.high - last.low)
    · rw [if_pos hc]
      constructor
      · rintro ⟨r, hr⟩
        obtain ⟨l, hfind, -⟩ := Option.map_eq_some'.mp hr
        have hp := List.find?_some hfind
        have hmem := List.mem_of_find?_eq_some hfind
        simp only [decide_eq_true_eq] at hp
        exact ⟨hc.1, hc.2, l, hmem, hp⟩
      · rintro ⟨-, -, l, hmem, hl⟩
        have hs : (levels.find? fun l =>
            decide (last.low < l.price ∧ l.price ≤ last.close)).isSome := by
          rw [List.find?_isSome]
          exact ⟨l, hmem, by simpa using hl⟩
        obtain ⟨l', hl'⟩ := Option.isSome_iff_exists.mp hs
        exact ⟨SweepResult.mk last l' .long, by rw [hl']; rfl⟩
    · rw [if_neg hc]
      constructor
      · rintro ⟨r, hr⟩
        exact Option.noConfusion hr
      · rintro ⟨h1, h2, -⟩
        exact absurd ⟨h1, h2⟩ hc

/-- Witness for C3 at a concrete bullish sweep of a previous-day low. -/
theorem detect_sweep_spec_witness :
    detect_sweep [⟨0, 1, 10010/10000, 9950/10000, 10005/10000⟩]
        [⟨9980/10000, .PDL⟩] "bullish" (PAIR_CONFIG "EURGBP") =
      (if 0 < (10010:ℚ)/10000 - 9950/10000 ∧
          (PAIR_CONFIG "EURGBP").min_wick_ratio ≤
            (min 1 ((10005:ℚ)/10000) - 9950/10000) /
              ((10010:ℚ)/10000 - 9950/10000) then
        (([⟨9980/10000, .PDL⟩] : List LiquidityLevel).find? fun l =>
          decide ((9950:ℚ)/10000 < l.price ∧ l.price ≤ (10005:ℚ)/10000)).map
          (fun l => SweepResult.mk ⟨0, 1, 10010/10000, 9950/10000, 10005/10000⟩
            l .long)
       else none) :=
  (detect_sweep_spec [⟨0, 1, 10010/10000, 9950/10000, 10005/10000⟩]
    [⟨9980/10000, .PDL⟩] (PAIR_CONFIG "EURGBP")
    ⟨0, 1, 10010/10000, 9950/10000, 10005/10000⟩ rfl
    (by intro h; exact List.noConfusion h)).1

/-! ## Claim C4 : break-of-structure confirmation -/

/-- Claim C4 (amended): for windows of at least 10 bars in which the sweep
candle's timestamp first occurs at index `idx`, `_confirm_bos` returns true
exactly when the (up to) 3 bars immediately preceding the sweep bar are
non-empty and some bar strictly after the sweep bar has a high strictly
exceeding every lookback high (long side) — using wick extremes, not
closes — mirrored for short-side sweeps with lows; windows shorter than 10
bars always return false (the unamended claim misses that guard: see the
counterexample). -/
theorem confirm_bos_spec :
    ∀ (candles_5m : List Candle) (sweep : SweepResult) (idx : ℕ),
      10 ≤ candles_5m.length →
      candles_5m.findIdx? (fun c => c.timestamp == sweep.candle.timestamp) =
        some idx →
      (confirm_bos candles_5m sweep = true ↔
        ((candles_5m.take idx).drop (idx - 3) ≠ [] ∧
         match sweep.side with
         | .long => ∃ c ∈ candles_5m.drop (idx + 1),
             ∀ b ∈ (candles_5m.take idx).drop (idx - 3), b.high < c.high
         | .short => ∃ c ∈ candles_5m.drop (idx + 1),
             ∀ b ∈ (candles_5m.take idx).drop (idx - 3), c.low < b.low)) := by
  intro candles_5m sweep idx hlen hidx
  unfold confirm_bos
  rw [if_neg (not_lt.mpr hlen), hidx]
  dsimp only
  cases hside : sweep.side
  case long =>
    cases hlb : (candles_5m.take idx).drop (idx - 3) with
    | nil => simp
    | cons x xs =>
      simp only [List.any_eq_true, decide_eq_true_eq, ne_eq, reduceCtorEq,
        not_false_iff, true_and, List.forall_mem_cons, foldl_max_lt]
  case short =>
    cases hlb : (candles_5m.take idx).drop (idx - 3) with
    | nil => simp
    | cons x xs =>
      simp only [List.any_eq_true, decide_eq_true_eq, ne_eq, reduceCtorEq,
        not_false_iff, true_and, List.forall_mem_cons, lt_foldl_min]

/-- A 9-bar window: the sweep bar sits at index 1, bar 0 is the whole
lookback (high 5), and bar 2 breaks it with high 10. -/
def bosWindow : List Candle :=
  [⟨0, 1, 5, 0, 1⟩, ⟨1, 1, 2, 0, 1⟩, ⟨2, 1, 10, 0, 1⟩, ⟨3, 1, 2, 0, 1⟩,
   ⟨4, 1, 2, 0, 1⟩, ⟨5, 1, 2, 0, 1⟩, ⟨6, 1, 2, 0, 1⟩, ⟨7, 1, 2, 0, 1⟩,
   ⟨8, 1, 2, 0, 1⟩]

/-- The long-side sweep result whose candle is `bosWindow`'s bar 1. -/
def bosSweep : SweepResult := ⟨⟨1, 1, 2, 0, 1⟩, ⟨1/2, .PDL⟩, .long⟩

/-- Counterexample to C4 as frozen: in a 9-bar window whose bar 2 breaks
the pre-sweep high, the claimed condition holds, yet `_confirm_bos`
returns false because of its minimum-10-bars guard. -/
theorem confirm_bos_counterexample :
    confirm_bos bosWindow bosSweep = false ∧
    bosWindow.length < 10 ∧
    bosWindow.findIdx? (fun c => c.timestamp == bosSweep.candle.timestamp) =
      some 1 ∧
    (bosWindow.take 1).drop (1 - 3) ≠ [] ∧
    (∃ c ∈ bosWindow.drop (1 + 1),
      ∀ b ∈ (bosWindow.take 1).drop (1 - 3), b.high < c.high) := by
  refine ⟨rfl, by decide, by decide, by decide, ?_⟩
  refine ⟨⟨2, 1, 10, 0, 1⟩, by decide, ?_⟩
  intro b hb
  have : b = ⟨0, 1, 5, 0, 1⟩ := by
    simpa [bosWindow] using hb
  rw [this]
  decide

/-- A 10-bar window extending `bosWindow`, for the amended theorem's
witness. -/
def bosWindow10 : List Candle := bosWindow ++ [⟨9, 1, 2, 0, 1⟩]

/-- Witness for C4's amended theorem at a concrete 10-bar window. -/
theorem confirm_bos_spec_witness :
    confirm_bos bosWindow10 bosSweep = true ↔
      ((bosWindow10.take 1).drop (1 - 3) ≠ [] ∧
       match bosSweep.side with
       | .long => ∃ c ∈ bosWindow10.drop (1 + 1),
           ∀ b ∈ (bosWindow10.take 1).drop (1 - 3), b.high < c.high
       | .short => ∃ c ∈ bosWindow10.drop (1 + 1),
           ∀ b ∈ (bosWindow10.take 1).drop (1 - 3), c.low < b.low) :=
  confirm_bos_spec bosWindow10 bosSweep 1 (by decide) (by decide)

/-! ## Claims C5 and C6 : run_tick cooldown and error handling -/

/-- A `foldl` preserves any invariant its step preserves. -/
theorem foldl_preserve {α β : Type} (step : β → α → β) (P : β → Prop)
    (h : ∀ b a, P b → P (step b a)) :
    ∀ (l : List α) (b : β), P b → P (l.foldl step b) := by
  intro l
  induction l with
  | nil => exact fun b hb => hb
  | cons x xs ih => exact fun b hb => ih _ (h b x hb)

/-- Every signal processed by the loop lands in `signals_out`, whatever the
broker does. -/
theorem tickStep_sigs (place : PlaceOrder) (t balance risk_pct : ℚ)
    (exec : Bool) (mfx mxau : ℤ) (acc : TickAcc) (sig : LiqSignal) :
    (tickStep place t balance risk_pct exec mfx mxau acc sig).sigs =
      acc.sigs ++ [toSigEntry sig] := by
  unfold tickStep
  dsimp only
  split
  · rfl
  · split
    · rfl
    · split
      · split
        · rfl
        · rfl
      · rfl

/-- `signals_out` of the whole fold is the map of the processed signals. -/
theorem foldl_tickStep_sigs (place : PlaceOrder) (t balance risk_pct : ℚ)
    (exec : Bool) (mfx mxau : ℤ) :
    ∀ (l : List LiqSignal) (acc : TickAcc),
      (l.foldl (tickStep place t balance risk_pct exec mfx mxau) acc).sigs =
        acc.sigs ++ l.map toSigEntry := by
  intro l
  induction l with
  | nil => intro acc; simp
  | cons x xs ih =>
    intro acc
    rw [List.foldl_cons, ih, tickStep_sigs, List.map_cons, List.append_assoc,
      List.singleton_append]

/-- The fields of one loop step other than `signals_out`: either the step
skipped (orders and cooldown unchanged) or it submitted for `sig.symbol`,
appending one order entry and stamping the cooldown with `t`. -/
theorem tickStep_cases (place : PlaceOrder) (t balance risk_pct : ℚ)
    (mfx mxau : ℤ) (acc : TickAcc) (sig : LiqSignal) :
    (((tickStep place t balance risk_pct true mfx mxau acc sig).orders =
        acc.orders ∧
      (tickStep place t balance risk_pct true mfx mxau acc sig).cd = acc.cd) ∨
     (∃ resp,
      (tickStep place t balance risk_pct true mfx mxau acc sig).orders =
        acc.orders ++ [⟨tickPlan sig (tickSignedUnits sig.side
          (tickUnits balance risk_pct sig mfx mxau)), resp⟩] ∧
      (tickStep place t balance risk_pct true mfx mxau acc sig).cd =
        cdSet acc.cd sig.symbol t ∧
      ¬(t - acc.cd sig.symbol < SYMBOL_COOLDOWN_SECONDS))) := by
  unfold tickStep
  dsimp only
  split
  · exact Or.inl ⟨rfl, rfl⟩
  · split
    · exact Or.inl ⟨rfl, rfl⟩
    · rename_i hcool
      split
      · split
        · rename_i r hr
          exact Or.inr ⟨.ok r, rfl, rfl, hcool⟩
        · rename_i e he
          exact Or.inr ⟨.err e, rfl, rfl, hcool⟩
      · rename_i hexec
        exact absurd rfl hexec

/-- Claim C5: with execution enabled, an order submission for symbol X
(accepted or failed) stamps X's cooldown with the cycle's monotonic time;
any later cycle within the 300-second window that produces a signal for X
reports that signal in the signals list but makes no order-submission
attempt for X (no orders entry, cooldown untouched). -/
theorem run_tick_cooldown_spec :
    ∀ (env1 env2 : TickEnv) (cd : CooldownMap) (t0 t1 balance risk_pct : ℚ)
      (mfx mxau : ℤ) (X : String),
      ((∃ o ∈ (run_tick env1 cd t0 balance risk_pct true mfx mxau).1.orders,
          o.plan.symbol = X) →
        (run_tick env1 cd t0 balance risk_pct true mfx mxau).2 X = t0) ∧
      ((run_tick env1 cd t0 balance risk_pct true mfx mxau).2 X = t0 →
        t1 - t0 < SYMBOL_COOLDOWN_SECONDS →
        is_forex_market_open env2.weekday env2.hour = true →
        ∀ sig ∈ env2.signals, sig.symbol = X →
          (toSigEntry sig ∈
            (run_tick env2 (run_tick env1 cd t0 balance risk_pct true mfx
              mxau).2 t1 balance risk_pct true mfx mxau).1.signals ∧
           (∀ o ∈ (run_tick env2 (run_tick env1 cd t0 balance risk_pct true
              mfx mxau).2 t1 balance risk_pct true mfx mxau).1.orders,
              o.plan.symbol ≠ X) ∧
           (run_tick env2 (run_tick env1 cd t0 balance risk_pct true mfx
              mxau).2 t1 balance risk_pct true mfx mxau).2 X = t0)) := by
  intro env1 env2 cd t0 t1 balance risk_pct mfx mxau X
  constructor
  · -- (1) an executed submission for X stamps the cooldown
    unfold run_tick
    split
    · rintro ⟨o, ho, -⟩
      exact absurd ho (by simp)
    · split
      · rintro ⟨o, ho, -⟩
        exact absurd ho (by simp)
      · have := foldl_preserve
          (tickStep env1.place t0 balance risk_pct true mfx mxau)
          (fun acc => (∃ o ∈ acc.orders, o.plan.symbol = X) → acc.cd X = t0)
          (fun acc sig hP => by
            rcases tickStep_cases env1.place t0 balance risk_pct mfx mxau
              acc sig with ⟨ho, hc⟩ | ⟨resp, ho, hc, -⟩
            · rw [ho, hc]
              exact hP
            · rw [ho, hc]
              rintro ⟨o, hom, hos⟩
              rcases List.mem_append.mp hom with hin | hnew
              · unfold cdSet
                by_cases hx : X = sig.symbol
                · rw [if_pos hx]
                · rw [if_neg hx]
                  exact hP ⟨o, hin, hos⟩
              · have : o = ⟨tickPlan sig (tickSignedUnits sig.side
                    (tickUnits balance risk_pct sig mfx mxau)), resp⟩ := by
                  simpa using hnew
                rw [this] at hos
                unfold tickPlan at hos
                unfold cdSet
                rw [if_pos hos.symm])
          env1.signals ⟨[], [], [], cd⟩ (by rintro ⟨o, ho, -⟩; exact absurd ho (by simp))
        exact this
  · -- (2) the cooldown window suppresses submission but not reporting
    intro hcd hwin hopen sig hmem hsym
    have hsignals : env2.signals.isEmpty = false := by
      cases henv : env2.signals
      · rw [henv] at hmem
        exact absurd hmem (by simp)
      · rfl
    have hkey : ∀ (l : List LiqSignal) (acc : TickAcc),
        acc.cd X = t0 → (∀ o ∈ acc.orders, o.plan.symbol ≠ X) →
        ((l.foldl (tickStep env2.place t1 balance risk_pct true mfx mxau)
            acc).cd X = t0 ∧
         (∀ o ∈ (l.foldl (tickStep env2.place t1 balance risk_pct true mfx
            mxau) acc).orders, o.plan.symbol ≠ X)) := by
      intro l
      induction l with
      | nil => exact fun acc h1 h2 => ⟨h1, h2⟩
      | cons s ss ih =>
        intro acc h1 h2
        rw [List.foldl_cons]
        rcases tickStep_cases env2.place t1 balance risk_pct mfx mxau acc s
          with ⟨ho, hc⟩ | ⟨resp, ho, hc, hcool⟩
        · exact ih _ (by rw [hc]; exact h1) (by rw [ho]; exact h2)
        · -- a submission happened for s: then s's symbol cannot be X,
          -- because X is inside its window
          have hsX : s.symbol ≠ X := by
            intro he
            rw [he] at hcool
            rw [h1] at hcool
            exact hcool hwin
          refine ih _ ?_ ?_
          · rw [hc]
            unfold cdSet
            rw [if_neg (fun h => hsX h.symm)]
            exact h1
          · rw [ho]
            intro o hom
            rcases List.mem_append.mp hom with hin | hnew
            · exact h2 o hin
            · have : o = ⟨tickPlan s (tickSignedUnits s.side
                  (tickUnits balance risk_pct s mfx mxau)), resp⟩ := by
                simpa using hnew
              rw [this]
              unfold tickPlan
              exact hsX
    unfold run_tick
    rw [if_neg (by rw [hopen]; intro h; exact h rfl), hsignals]
    rw [if_neg Bool.false_ne_true]
    dsimp only
    refine ⟨?_, ?_, ?_⟩
    · rw [foldl_tickStep_sigs]
      simp only [List.nil_append]
      exact List.mem_map_of_mem toSigEntry hmem
    · exact (hkey env2.signals ⟨[], [], [], _⟩ hcd (by simp)).2
    · exact (hkey env2.signals ⟨[], [], [], _⟩ hcd (by simp)).1

/-- A concrete liquidity signal used by the `run_tick` witnesses. -/
def exLiqSig : LiqSignal :=
  ⟨"EURGBP", .long, 10800/10000, 10785/10000, 11000/10000, 2, "5m", ""⟩

/-- A cycle-1 environment: market open, one EURGBP signal, broker accepts. -/
def exTickEnv1 : TickEnv := ⟨0, 10, [exLiqSig], fun _ _ _ _ _ _ => .ok "filled"⟩

/-- A cycle-2 environment at a later wall-clock time, same signal. -/
def exTickEnv2 : TickEnv := ⟨1, 12, [exLiqSig], fun _ _ _ _ _ _ => .ok "filled"⟩

/-- Witness for C5: cycle 1 at monotonic time 1000 submits for EURGBP;
cycle 2 at time 1100 (inside the 300-second window) still reports the
signal, attempts no order for EURGBP, and leaves its cooldown stamp. -/
theorem run_tick_cooldown_spec_witness :
    toSigEntry exLiqSig ∈
      (run_tick exTickEnv2 (run_tick exTickEnv1 (fun _ => 0) 1000 10000 (1/2)
        true 2000 20).2 1100 10000 (1/2) true 2000 20).1.signals ∧
    ((run_tick exTickEnv2 (run_tick exTickEnv1 (fun _ => 0) 1000 10000 (1/2)
        true 2000 20).2 1100 10000 (1/2) true 2000 20).1.orders.all
      (fun o => decide (o.plan.symbol ≠ "EURGBP")) = true) ∧
    (run_tick exTickEnv2 (run_tick exTickEnv1 (fun _ => 0) 1000 10000 (1/2)
        true 2000 20).2 1100 10000 (1/2) true 2000 20).2 "EURGBP" = 1000 := by
  have h := run_tick_cooldown_spec exTickEnv1 exTickEnv2 (fun _ => 0) 1000
    1100 10000 (1/2) 2000 20 "EURGBP"
  have hcd : (run_tick exTickEnv1 (fun _ => 0) 1000 10000 (1/2) true 2000
      20).2 "EURGBP" = 1000 :=
    h.1 (by decide)
  have h2 := h.2 hcd (by decide) (by decide) exLiqSig (by decide) rfl
  exact ⟨h2.1,
    List.all_eq_true.mpr (fun o ho => decide_eq_true (h2.2.1 o ho)),
    h2.2.2⟩

/-- Claim C6: a broker exception during order placement is caught per
instrument — the orders list gains exactly one entry carrying the
`{status: error, detail}` marker, the cooldown stamp for the symbol is
still recorded — and the cycle keeps processing the remaining signals
(the signals list of the returned summary always covers every generated
signal, so no fault propagates to `run_tick`'s caller). -/
theorem run_tick_error_spec :
    (∀ (place : PlaceOrder) (t balance risk_pct : ℚ) (mfx mxau : ℤ)
       (acc : TickAcc) (sig : LiqSignal) (e : String),
      0 < truncInt (calc_position_size balance risk_pct sig.entry
        sig.stop_loss) →
      ¬(t - acc.cd sig.symbol < SYMBOL_COOLDOWN_SECONDS) →
      place sig.symbol sig.side (tickSignedUnits sig.side
        (tickUnits balance risk_pct sig mfx mxau)) sig.entry sig.stop_loss
        sig.take_profit = .error e →
      tickStep place t balance risk_pct true mfx mxau acc sig =
        ⟨acc.sigs ++ [toSigEntry sig],
         acc.planned ++ [tickPlan sig (tickSignedUnits sig.side
           (tickUnits balance risk_pct sig mfx mxau))],
         acc.orders ++ [⟨tickPlan sig (tickSignedUnits sig.side
           (tickUnits balance risk_pct sig mfx mxau)), .err e⟩],
         cdSet acc.cd sig.symbol t⟩) ∧
    (∀ (env : TickEnv) (cd : CooldownMap) (t balance risk_pct : ℚ)
       (exec : Bool) (mfx mxau : ℤ),
      is_forex_market_open env.weekday env.hour = true →
      (run_tick env cd t balance risk_pct exec mfx mxau).1.signals =
        env.signals.map toSigEntry) := by
  constructor
  · intro place t balance risk_pct mfx mxau acc sig e h1 h2 h3
    unfold tickStep
    dsimp only
    rw [if_neg (not_le.mpr h1), if_neg h2, if_pos rfl, h3]
  · intro env cd t balance risk_pct exec mfx mxau hopen
    unfold run_tick
    rw [if_neg (by rw [hopen]; intro h; exact h rfl)]
    cases hsig : env.signals with
    | nil =>
      simp
    | cons s ss =>
      rw [show (s :: ss).isEmpty = false from rfl]
      rw [if_neg Bool.false_ne_true]
      dsimp only
      rw [foldl_tickStep_sigs]
      simp

/-- A broker that rejects every order. -/
def errPlace : PlaceOrder := fun _ _ _ _ _ _ => .error "rejected"

/-- Witness for C6: the rejecting broker yields exactly one orders entry
with the error marker. -/
theorem run_tick_error_spec_witness :
    (tickStep errPlace 1000 10000 (1/2) true 2000 20 ⟨[], [], [], fun _ => 0⟩
        exLiqSig).orders =
      [⟨tickPlan exLiqSig (tickSignedUnits exLiqSig.side
        (tickUnits 10000 (1/2) exLiqSig 2000 20)), .err "rejected"⟩] := by
  rw [run_tick_error_spec.1 errPlace 1000 10000 (1/2) 2000 20
    ⟨[], [], [], fun _ => 0⟩ exLiqSig "rejected" (by decide) (by decide) rfl]
  rfl

/-! ## Claim C9 : bounded rolling histories -/

/-- `_record_run` keeps at most 100 entries. -/
theorem record_run_length (runs : List RunSummary) (summary : RunSummary) :
    (record_run runs summary).length ≤ 100 := by
  unfold record_run
  dsimp only
  by_cases h : 100 < (runs ++ [summary]).length
  · rw [if_pos h, List.length_drop]
    omega
  · rw [if_neg h]
    omega

/-- `_record_run` evicts only from the front. -/
theorem record_run_suffix (runs : List RunSummary) (summary : RunSummary) :
    List.IsSuffix (record_run runs summary) (runs ++ [summary]) := by
  unfold record_run
  dsimp only
  by_cases h : 100 < (runs ++ [summary]).length
  · rw [if_pos h]
    exact List.drop_suffix _ _
  · rw [if_neg h]

/-- `_record_run` appends the new summary at the tail. -/
theorem record_run_getLast (runs : List RunSummary) (summary : RunSummary) :
    (record_run runs summary).getLast? = some summary := by
  unfold record_run
  dsimp only
  by_cases h : 100 < (runs ++ [summary]).length
  · rw [if_pos h, List.getLast?_drop, if_neg (by omega), List.getLast?_concat]
  · rw [if_neg h]
    exact List.getLast?_concat _

/-- `_record_trade` keeps at most the configured limit when it is
positive. -/
theorem record_trade_length (s : Settings) (trades : List TradeAction)
    (trade : TradeAction) (hl : 0 < s.RECENT_TRADES_LIMIT) :
    (record_trade s trades trade).length ≤ s.RECENT_TRADES_LIMIT := by
  unfold record_trade
  dsimp only
  by_cases h : s.RECENT_TRADES_LIMIT < (trades ++ [trade]).length
  · rw [if_pos h, if_neg (by omega), List.length_drop]
    omega
  · rw [if_neg h]
    omega

/-- `_record_trade` evicts only from the front. -/
theorem record_trade_suffix (s : Settings) (trades : List TradeAction)
    (trade : TradeAction) :
    List.IsSuffix (record_trade s trades trade) (trades ++ [trade]) := by
  unfold record_trade
  dsimp only
  by_cases h : s.RECENT_TRADES_LIMIT < (trades ++ [trade]).length
  · rw [if_pos h]
    by_cases h0 : s.RECENT_TRADES_LIMIT = 0
    · rw [if_pos h0]
    · rw [if_neg h0]
      exact List.drop_suffix _ _
  · rw [if_neg h]

/-- `_record_trade` appends the new trade at the tail. -/
theorem record_trade_getLast (s : Settings) (trades : List TradeAction)
    (trade : TradeAction) :
    (record_trade s trades trade).getLast? = some trade := by
  unfold record_trade
  dsimp only
  by_cases h : s.RECENT_TRADES_LIMIT < (trades ++ [trade]).length
  · rw [if_pos h]
    by_cases h0 : s.RECENT_TRADES_LIMIT = 0
    · rw [if_pos h0]
      exact List.getLast?_concat _
    · rw [if_neg h0, List.getLast?_drop, if_neg (by omega),
        List.getLast?_concat]
  · rw [if_neg h]
    exact List.getLast?_concat _

/-- One execute-loop step either leaves the rolling trade history alone or
records exactly one trade through `_record_trade`. -/
theorem execStep_trades_cases (s : Settings) (env : EngineEnv) (equity : ℚ)
    (surge : Bool) (ethr : ℚ) (emax : ℕ) (acc : ExecAcc) (a : Analysis) :
    (execStep s env equity surge ethr emax acc a).recent_trades =
      acc.recent_trades ∨
    ∃ act, (execStep s env equity surge ethr emax acc a).recent_trades =
      record_trade s acc.recent_trades act := by
  unfold execStep
  dsimp only
  by_cases h1 : acc.done = true
  · rw [if_pos h1]
    exact Or.inl rfl
  rw [if_neg h1]
  by_cases h2 : (env.open_trades.any fun t => t.instrument == a.pair) = true
  · rw [if_pos h2]
    exact Or.inl rfl
  rw [if_neg h2]
  by_cases h3 : a.signal.side = "FLAT" ∨ a.confidence < s.CONFIDENCE_MIN
  · rw [if_pos h3]
    exact Or.inl rfl
  rw [if_neg h3]
  by_cases h4 : would_stack_usd_exposure s a.pair a.signal.side
      env.open_trades = true
  · rw [if_pos h4]
    exact Or.inl rfl
  rw [if_neg h4]
  cases a.rows.getLast? with
  | none => exact Or.inl rfl
  | some lastRow =>
    cases a.signal.stop_loss with
    | none => exact Or.inl rfl
    | some sl =>
      cases a.signal.take_profit with
      | none => exact Or.inl rfl
      | some tp =>
        dsimp only
        repeat' split
        all_goals first
          | exact Or.inl rfl
          | exact Or.inr ⟨_, rfl⟩

/-- The `refresh`/`update` stages only touch the anchor and the closed-trade
ledger. -/
theorem pre_stages_histories (env : EngineEnv) (st : EngineState) :
    (update_closed_trades env
        (refresh_daily_equity_anchor env st)).recent_runs = st.recent_runs ∧
    (update_closed_trades env
        (refresh_daily_equity_anchor env st)).recent_trades =
      st.recent_trades := by
  unfold update_closed_trades refresh_daily_equity_anchor
  split <;> split <;> first | exact ⟨rfl, rfl⟩ | (split <;> exact ⟨rfl, rfl⟩)

/-- The execute loop preserves the rolling trade-history bound. -/
theorem execStep_trades_le (s : Settings) (env : EngineEnv) (equity : ℚ)
    (surge : Bool) (ethr : ℚ) (emax : ℕ) (hl : 0 < s.RECENT_TRADES_LIMIT) :
    ∀ (l : List Analysis) (acc : ExecAcc),
      acc.recent_trades.length ≤ s.RECENT_TRADES_LIMIT →
      (l.foldl (execStep s env equity surge ethr emax)
        acc).recent_trades.length ≤ s.RECENT_TRADES_LIMIT := by
  intro l acc h
  refine foldl_preserve _
    (fun b => b.recent_trades.length ≤ s.RECENT_TRADES_LIMIT)
    (fun b a hb => ?_) l acc h
  rcases execStep_trades_cases s env equity surge ethr emax b a with
    hcase | ⟨act, hcase⟩
  · rw [hcase]
    exact hb
  · rw [hcase]
    exact record_trade_length s b.recent_trades act hl

/-- Claim C9: after every `run_once` call the rolling run history holds at
most 100 entries and the rolling trade history at most the configured
limit; each cycle appends its summary (and each executed trade) at the
tail, evicting only the oldest — an invariant preserved by every cycle. -/
theorem history_bounds_spec :
    (∀ (runs : List RunSummary) (summary : RunSummary),
      (record_run runs summary).length ≤ 100 ∧
      List.IsSuffix (record_run runs summary) (runs ++ [summary]) ∧
      (record_run runs summary).getLast? = some summary) ∧
    (∀ (s : Settings) (trades : List TradeAction) (trade : TradeAction),
      0 < s.RECENT_TRADES_LIMIT →
      (record_trade s trades trade).length ≤ s.RECENT_TRADES_LIMIT ∧
      List.IsSuffix (record_trade s trades trade) (trades ++ [trade]) ∧
      (record_trade s trades trade).getLast? = some trade) ∧
    (∀ (s : Settings) (env : EngineEnv) (st : EngineState),
      0 < s.RECENT_TRADES_LIMIT →
      st.recent_trades.length ≤ s.RECENT_TRADES_LIMIT →
      (run_once s env st).2.recent_runs.length ≤ 100 ∧
      (run_once s env st).2.recent_trades.length ≤ s.RECENT_TRADES_LIMIT) := by
  refine ⟨fun runs summary => ⟨record_run_length runs summary,
      record_run_suffix runs summary, record_run_getLast runs summary⟩,
    fun s trades trade hl => ⟨record_trade_length s trades trade hl,
      record_trade_suffix s trades trade, record_trade_getLast s trades trade⟩,
    fun s env st hl hst => ?_⟩
  obtain ⟨hruns, htrades⟩ := pre_stages_histories env st
  unfold run_once
  dsimp only
  rw [hruns, htrades]
  repeat' split
  all_goals refine ⟨record_run_length _ _, ?_⟩
  all_goals first
    | exact hst
    | exact execStep_trades_le s env env.equity _ _ _ hl _ _ hst

/-- Witness for C9 at concrete histories. -/
theorem history_bounds_spec_witness :
    (record_trade defaultSettings [] ⟨"EUR_USD", "LONG", 1, 1, 1, 1, "r", 0,
      0, false, "ok", 0, 0, 2, 0, fun _ => 0⟩).length ≤
      defaultSettings.RECENT_TRADES_LIMIT :=
  ((history_bounds_spec.2.1 defaultSettings []
    ⟨"EUR_USD", "LONG", 1, 1, 1, 1, "r", 0, 0, false, "ok", 0, 0, 2, 0,
      fun _ => 0⟩ (by decide)).1)

/-! ## Claim C1 : run_once halt-condition order -/

/-- Claim C1 (amended): the halt conditions of `run_once` are evaluated in
the order MARKET_CLOSED, DRAWDOWN_HALT, CONSECUTIVE_LOSS_HALT,
MAX_TRADES_REACHED, then "outside the trading session with no
extreme-volatility override", and only then "no instruments above the
volatility floor"; the first condition that holds short-circuits the cycle
and is returned as the terminal reason, and a cycle that passes them all
ends in EXECUTED/NO_VALID_SIGNALS.  (The frozen claim puts the
volatility-floor check before the session check; the code checks the
session first — see the counterexample.) -/
theorem run_once_halt_priority :
    ∀ (s : Settings) (env : EngineEnv) (st : EngineState),
      let st' := update_closed_trades env (refresh_daily_equity_anchor env st)
      let pr := compute_portfolio_risk env.open_trades env.equity
      let analyses := analyze_pairs s env
      let extreme_pairs := analyses.filter fun a =>
        decide (s.VOLATILITY_MIN_SCORE * s.VOLATILITY_EXTREME_MULTIPLIER ≤
          a.volatility)
      let hot := analyses.filter fun a =>
        decide (s.VOLATILITY_MIN_SCORE ≤ a.volatility)
      let reason := (run_once s env st).1.reason
      (is_forex_market_open env.weekday env.hour = false →
        reason = "market_closed") ∧
      (is_forex_market_open env.weekday env.hour = true →
        (daily_drawdown_exceeded s env.equity st'.start_of_day_equity).1 =
          true →
        reason = "kill_switch_daily_drawdown_exceeded") ∧
      (is_forex_market_open env.weekday env.hour = true →
        (daily_drawdown_exceeded s env.equity st'.start_of_day_equity).1 =
          false →
        check_consecutive_loss_kill_switch s st'.closed_trade_results = true →
        reason = "kill_switch_consecutive_losses") ∧
      (is_forex_market_open env.weekday env.hour = true →
        (daily_drawdown_exceeded s env.equity st'.start_of_day_equity).1 =
          false →
        check_consecutive_loss_kill_switch s st'.closed_trade_results =
          false →
        get_effective_max_trades s pr ≤ env.open_trades.length →
        reason = "max_open_trades_reached") ∧
      (is_forex_market_open env.weekday env.hour = true →
        (daily_drawdown_exceeded s env.equity st'.start_of_day_equity).1 =
          false →
        check_consecutive_loss_kill_switch s st'.closed_trade_results =
          false →
        ¬(get_effective_max_trades s pr ≤ env.open_trades.length) →
        in_trading_session s env.hour = false →
        extreme_pairs = [] →
        reason = "outside_session_hours") ∧
      (is_forex_market_open env.weekday env.hour = true →
        (daily_drawdown_exceeded s env.equity st'.start_of_day_equity).1 =
          false →
        check_consecutive_loss_kill_switch s st'.closed_trade_results =
          false →
        ¬(get_effective_max_trades s pr ≤ env.open_trades.length) →
        (in_trading_session s env.hour = true ∨ extreme_pairs ≠ []) →
        hot = [] →
        reason = "no_pairs_above_vol_threshold") ∧
      (is_forex_market_open env.weekday env.hour = true →
        (daily_drawdown_exceeded s env.equity st'.start_of_day_equity).1 =
          false →
        check_consecutive_loss_kill_switch s st'.closed_trade_results =
          false →
        ¬(get_effective_max_trades s pr ≤ env.open_trades.length) →
        (in_trading_session s env.hour = true ∨ extreme_pairs ≠ []) →
        hot ≠ [] →
        (reason = "completed" ∨ reason = "no_valid_signals_in_hot_pairs")) := by
  intro s env st
  dsimp only
  refine ⟨?_, ?_, ?_, ?_, ?_, ?_, ?_⟩
  · intro h
    unfold run_once
    dsimp only
    rw [h]
    rw [if_pos (by simp)]
  · intro h1 h2
    unfold run_once
    dsimp only
    rw [h1, if_neg (by simp), h2, if_pos rfl]
  · intro h1 h2 h3
    unfold run_once
    dsimp only
    rw [h1, if_neg (by simp), h2, if_neg Bool.false_ne_true, h3, if_pos rfl]
  · intro h1 h2 h3 h4
    unfold run_once
    dsimp only
    rw [h1, if_neg (by simp), h2, if_neg Bool.false_ne_true, h3,
      if_neg Bool.false_ne_true, if_pos h4]
  · intro h1 h2 h3 h4 h5 h6
    unfold run_once
    dsimp only
    rw [h1, if_neg (by simp), h2, if_neg Bool.false_ne_true, h3,
      if_neg Bool.false_ne_true, if_neg h4, h5, h6,
      if_pos ⟨by simp, rfl⟩]
  · intro h1 h2 h3 h4 h56 h7
    unfold run_once
    dsimp only
    rw [h1, if_neg (by simp), h2, if_neg Bool.false_ne_true, h3,
      if_neg Bool.false_ne_true, if_neg h4]
    rw [if_neg (fun hc => by
      rcases h56 with h5 | h6
      · rw [h5] at hc
        exact hc.1 rfl
      · exact h6 (List.isEmpty_iff.mp hc.2))]
    rw [h7, if_pos (List.isEmpty_iff.mpr rfl)]
  · intro h1 h2 h3 h4 h56 h7
    unfold run_once
    dsimp only
    rw [h1, if_neg (by simp), h2, if_neg Bool.false_ne_true, h3,
      if_neg Bool.false_ne_true, if_neg h4]
    rw [if_neg (fun hc => by
      rcases h56 with h5 | h6
      · rw [h5] at hc
        exact hc.1 rfl
      · exact h6 (List.isEmpty_iff.mp hc.2))]
    rw [if_neg (fun hc => h7 (List.isEmpty_iff.mp hc))]
    repeat' split
    all_goals first
      | exact Or.inl rfl
      | exact Or.inr rfl

/-- An environment in which the market is open, no halt condition up to
MAX_TRADES holds, the clock is outside session hours, and every analyzed
instrument sits below the volatility floor (no candles at all). -/
def c1Env : EngineEnv :=
  ⟨0, 0, 23, 10000, 0, [], fun _ => [], fun _ _ _ _ => .ok "r"⟩

/-- A matching quiescent engine state. -/
def c1State : EngineState := ⟨0, 10000, [], [], []⟩

/-- Counterexample to C1 as frozen: with no instrument at the volatility
floor AND the clock outside session hours (no override), the cycle
terminates with the outside-session reason, not the volatility-floor
reason — the session check runs first. -/
theorem run_once_session_before_vol_floor :
    (run_once defaultSettings c1Env c1State).1.reason =
      "outside_session_hours" ∧
    (run_once defaultSettings c1Env c1State).1.reason ≠
      "no_pairs_above_vol_threshold" ∧
    ((analyze_pairs defaultSettings c1Env).all fun a =>
      decide (a.volatility < defaultSettings.VOLATILITY_MIN_SCORE)) = true ∧
    in_trading_session defaultSettings c1Env.hour = false ∧
    is_forex_market_open c1Env.weekday c1Env.hour = true := by
  exact ⟨by decide, by decide, by decide, by decide, by decide⟩

/-- Witness for C1's amended theorem: a Saturday cycle halts with
`market_closed`. -/
theorem run_once_halt_priority_witness :
    (run_once defaultSettings
      ⟨0, 5, 23, 10000, 0, [], fun _ => [], fun _ _ _ _ => .ok "r"⟩
      c1State).1.reason = "market_closed" :=
  (run_once_halt_priority defaultSettings
    ⟨0, 5, 23, 10000, 0, [], fun _ => [], fun _ _ _ _ => .ok "r"⟩
    c1State).1 (by decide)

/-! ## Claim C10 : the R:R floor of ChaosFX signals -/

/-- Pip factors are positive. -/
theorem pip_factor_pos (instrument : String) : 0 < pip_factor instrument := by
  unfold pip_factor
  split_ifs <;> norm_num

/-- Under the default settings every volatility tier's target R:R is at
least 2. -/
theorem select_rr_ge_two (v : ℚ) :
    2 ≤ select_risk_reward_target defaultSettings v := by
  unfold select_risk_reward_target
  dsimp only
  split_ifs <;> decide

/-- The dynamic stop distance is positive whenever the configured one is. -/
theorem dynSlPips_pos (s : Settings) (instrument : String) (rows : List Row)
    (sl_pips : ℚ) (hsl : 0 < sl_pips) :
    0 < dynSlPips s instrument rows sl_pips := by
  unfold dynSlPips
  split
  · exact lt_of_lt_of_le hsl (le_max_left _ _)
  · exact hsl

/-- The forced take-profit distance is at least target-R:R times the stop
distance. -/
theorem dynTpPips_ge (s : Settings) (instrument : String) (rows : List Row)
    (sl_pips tp_pips target_rr : ℚ) :
    dynSlPips s instrument rows sl_pips * target_rr ≤
      dynTpPips s instrument rows sl_pips tp_pips target_rr := by
  unfold dynTpPips
  split
  · exact le_max_right _ _
  · rename_i h
    unfold dynSlPips
    rw [if_neg h]
    exact le_max_right _ _

/-- Evaluating `validate_risk_reward` on the symmetric SL/TP construction:
the realized R:R is the pip-distance ratio. -/
theorem validate_eval (s : Settings) (price sl_d tp_d : ℚ) (side : String)
    (h : 0 < sl_d) :
    validate_risk_reward s price
      (if side = "LONG" then price - sl_d else price + sl_d)
      (if side = "LONG" then price + tp_d else price - tp_d) side =
      (decide (s.MIN_RISK_REWARD ≤ tp_d / sl_d), tp_d / sl_d) := by
  unfold validate_risk_reward
  by_cases hs : side = "LONG"
  · rw [if_pos hs, if_pos hs, if_pos hs, if_pos hs,
      show price - (price - sl_d) = sl_d by ring,
      show price + tp_d - price = tp_d by ring,
      if_neg (not_le.mpr h)]
  · rw [if_neg hs, if_neg hs, if_neg hs, if_neg hs,
      show price + sl_d - price = sl_d by ring,
      show price - (price - tp_d) = tp_d by ring,
      if_neg (not_le.mpr h)]

/-- The SL/TP stage under default settings always passes its own R:R
validation when the configured stop distance is positive: the emitted
signal keeps the pattern side and reason, and its realized R:R is at least
the volatility-selected target. -/
theorem sltpStage_rr_ge (instrument : String) (rows : List Row)
    (sl_pips tp_pips : ℚ) (side reason : String) (ps : ℚ)
    (hsl : 0 < sl_pips) :
    (sltpStage defaultSettings instrument rows sl_pips tp_pips side reason
      ps).1.side = side ∧
    (sltpStage defaultSettings instrument rows sl_pips tp_pips side reason
      ps).1.reason = reason ∧
    select_risk_reward_target defaultSettings (volScore rows) ≤
      (sltpStage defaultSettings instrument rows sl_pips tp_pips side reason
        ps).1.risk_reward ∧
    (sltpStage defaultSettings instrument rows sl_pips tp_pips side reason
      ps).2.volatility = volScore rows := by
  have hpf : 0 < pip_factor instrument := pip_factor_pos instrument
  have hdsl : 0 < dynSlPips defaultSettings instrument rows sl_pips :=
    dynSlPips_pos _ _ _ _ hsl
  have hsd : 0 < dynSlPips defaultSettings instrument rows sl_pips *
      pip_factor instrument := mul_pos hdsl hpf
  have htar2 : (2:ℚ) ≤
      select_risk_reward_target defaultSettings (volScore rows) :=
    select_rr_ge_two _
  have hratio : select_risk_reward_target defaultSettings (volScore rows) ≤
      dynTpPips defaultSettings instrument rows sl_pips tp_pips
        (select_risk_reward_target defaultSettings (volScore rows)) *
        pip_factor instrument /
      (dynSlPips defaultSettings instrument rows sl_pips *
        pip_factor instrument) := by
    rw [mul_div_mul_right _ _ (ne_of_gt hpf)]
    rw [le_div_iff₀ hdsl]
    rw [mul_comm]
    exact dynTpPips_ge _ _ _ _ _ _
  have hvalid : decide (defaultSettings.MIN_RISK_REWARD ≤
      dynTpPips defaultSettings instrument rows sl_pips tp_pips
        (select_risk_reward_target defaultSettings (volScore rows)) *
        pip_factor instrument /
      (dynSlPips defaultSettings instrument rows sl_pips *
        pip_factor instrument)) = true :=
    decide_eq_true (le_trans (le_trans (by decide) htar2) hratio)
  unfold sltpStage
  dsimp only
  rw [validate_eval defaultSettings _ _ _ side hsd]
  rw [if_neg (by rw [hvalid]; simp)]
  exact ⟨rfl, rfl, hratio, rfl⟩

/-- No pattern reason is the `rr_too_low` marker. -/
theorem patternSignal_reason_ne (rows : List Row) (trend : String) :
    (patternSignal rows trend).2.1 ≠ "rr_too_low" := by
  unfold patternSignal
  dsimp only
  split_ifs <;> decide

/-- Claim C10: under the default settings (positive configured stop
distance), every non-FLAT ChaosFX signal realizes an R:R at least the
volatility-selected target, the target itself is at least the floor 2.0,
and the `rr_too_low` rejection branch is unreachable (no reason ever equals
its marker). -/
theorem chaos_rr_floor_spec :
    ∀ (instrument : String) (candles : List OandaCandle)
      (sl_pips tp_pips : ℚ), 0 < sl_pips →
      ((generate_signal defaultSettings instrument candles sl_pips
          tp_pips).1.side ≠ "FLAT" →
        select_risk_reward_target defaultSettings
          (generate_signal defaultSettings instrument candles sl_pips
            tp_pips).2.2.volatility ≤
        (generate_signal defaultSettings instrument candles sl_pips
          tp_pips).1.risk_reward) ∧
      ((2:ℚ) ≤ select_risk_reward_target defaultSettings
        (generate_signal defaultSettings instrument candles sl_pips
          tp_pips).2.2.volatility) ∧
      (generate_signal defaultSettings instrument candles sl_pips
        tp_pips).1.reason ≠ "rr_too_low" := by
  intro instrument candles sl_pips tp_pips hsl
  unfold generate_signal
  dsimp only
  split
  · exact ⟨fun h => absurd rfl h, select_rr_ge_two _,
      show ("not_enough_data" : String) ≠ "rr_too_low" from by decide⟩
  · split
    · exact ⟨fun h => absurd rfl h, select_rr_ge_two _,
        show ("atr_not_expanding" : String) ≠ "rr_too_low" from by decide⟩
    · split
      · exact ⟨fun h => absurd rfl h, select_rr_ge_two _,
          show ("no_trend_alignment_ranging" : String) ≠ "rr_too_low" from
            by decide⟩
      · split
        · exact ⟨fun h => absurd rfl h, select_rr_ge_two _,
            show ("no_breakout_structure" : String) ≠ "rr_too_low" from
              by decide⟩
        · split
          · rename_i hflat
            refine ⟨fun h => absurd rfl h, select_rr_ge_two _, ?_⟩
            exact patternSignal_reason_ne (rowsOf candles)
              (trendOf (rowsOf candles))
          · rename_i hside
            obtain ⟨h1, h2, h3, h4⟩ := sltpStage_rr_ge instrument
              (rowsOf candles) sl_pips tp_pips
              (patternSignal (rowsOf candles) (trendOf (rowsOf candles))).1
              (patternSignal (rowsOf candles) (trendOf (rowsOf candles))).2.1
              (patternSignal (rowsOf candles) (trendOf (rowsOf candles))).2.2
              hsl
            refine ⟨fun _ => ?_, ?_, ?_⟩
            · rw [h4]
              exact h3
            · rw [h4]
              exact select_rr_ge_two _
            · rw [h2]
              exact patternSignal_reason_ne (rowsOf candles)
                (trendOf (rowsOf candles))

/-- Witness for C10 at a concrete input (too little data, hence FLAT with
a non-R:R reason). -/
theorem chaos_rr_floor_spec_witness :
    ((2:ℚ) ≤ select_risk_reward_target defaultSettings
      (generate_signal defaultSettings "EUR_USD" [] 15 30).2.2.volatility) ∧
    (generate_signal defaultSettings "EUR_USD" [] 15 30).1.reason ≠
      "rr_too_low" := by
  have h := chaos_rr_floor_spec "EUR_USD" [] 15 30 (by norm_num)
  exact ⟨h.2.1, h.2.2⟩

end ForexBot
